import Mathlib

/-!
Verification development for the school-management data-access layer.

The Python source (package `data_source_interface`) is embedded shallowly:

* `models.py` becomes Lean structures (`Person`, `Student`, `Teacher`,
  `Class`, `ClassEnrollment`, `BulkOperation`, response envelopes, ...).
  Timestamps (`datetime`) are modelled as natural numbers; each adapter
  state carries a `now` clock and a `gen` counter standing for the
  `uuid.uuid4()` supply of `_generate_id`.
* `database_interface.py` (`MongoDBInterface`) becomes functions over a
  `MongoState` whose collections are association lists keyed by the
  storage-native `_id`.  The driver primitives `insert_one`,
  `find_one`, `replace_one`, `delete_one`, `insert_many` are modelled
  explicitly; `insert_one` fails on a duplicate `_id` (the only failure
  mode expressible in this state model), and the per-operation
  `try/except` blocks become a `match` on the primitive's `Except`.
* `elasticsearch_interface.py` and `postgresql_interface.py` are
  embedded the same way for the operations the claims are about.
* `mcp_server.py` (the facade) becomes functions that first run a
  pydantic-style constructor (`mkPerson`, `mkStudent`) on a plain
  field dictionary and then dispatch to the adapter, flattening the
  typed response.

Raw JSON-ish documents (Python dicts) are modelled by `Val` /
`Item` (association lists of field name to `Val`).
-/

namespace SchoolApp

/-- Scalar JSON-ish value (Python scalars stored in dicts). -/
inductive Prim where
  | null
  | bool (b : Bool)
  | num (n : Int)
  | str (s : String)
deriving DecidableEq, Repr

/-- JSON-ish value stored in raw documents (Python dict values): a
scalar, a flat array of scalars or a flat object of scalars.  The
dicts the claims are about never nest deeper. -/
inductive Val where
  | prim (p : Prim)
  | arr (vs : List Prim)
  | obj (fs : List (String × Prim))
deriving DecidableEq, Repr

/-- Shorthand for a string value. -/
def Val.str (s : String) : Val := .prim (.str s)

/-- Shorthand for an integer value. -/
def Val.num (n : Int) : Val := .prim (.num n)

/-- Shorthand for a boolean value. -/
def Val.bool (b : Bool) : Val := .prim (.bool b)

/-- Shorthand for Python `None`. -/
def Val.null : Val := .prim .null

/-- Python truthiness of a value (`if not item.get('id')` tests). -/
def Val.truthy : Val → Bool
  | .prim .null => false
  | .prim (.bool b) => b
  | .prim (.num n) => n != 0
  | .prim (.str s) => s != ""
  | .arr vs => !vs.isEmpty
  | .obj fs => !fs.isEmpty

/-- Python `str()` of a value, used when an id is interpolated into an
error message. -/
def Val.show : Val → String
  | .prim .null => "None"
  | .prim (.bool b) => if b then "True" else "False"
  | .prim (.num n) => toString n
  | .prim (.str s) => s
  | .arr _ => "[...]"
  | .obj _ => "[...]"

/-- A raw document: a Python dict with string keys. -/
abbrev Item := List (String × Val)

/-- `item.get(k)`: first binding of `k`, `None` when absent. -/
def itemGet (it : Item) (k : String) : Option Val :=
  (it.find? (fun p => p.1 = k)).map (fun p => p.2)

/-- `item[k] = v`: replace the existing binding of `k`, else append. -/
def itemSet (it : Item) (k : String) (v : Val) : Item :=
  if it.any (fun p => p.1 = k) then
    it.map (fun p => if p.1 = k then (k, v) else p)
  else
    it ++ [(k, v)]

/-- Truthiness of `item.get(k)` (missing keys are falsy like `None`). -/
def optTruthy : Option Val → Bool
  | none => false
  | some v => v.truthy

section KeyedCollection

variable {κ : Type} [DecidableEq κ] {α : Type}

/-- A backend collection / index: documents keyed by their storage id. -/
abbrev Coll (κ : Type) (α : Type) := List (κ × α)

/-- Does the collection hold a document with this key? -/
def hasKey (c : Coll κ α) (k : κ) : Bool :=
  c.any (fun p => p.1 = k)

/-- `find_one({"_id": k})`: the first document stored under `k`. -/
def find_one (c : Coll κ α) (k : κ) : Option α :=
  (c.find? (fun p => p.1 = k)).map (fun p => p.2)

/-- `insert_one`: fails with a duplicate-key error when the `_id` is
already present, otherwise appends the document. -/
def insert_one (c : Coll κ α) (k : κ) (v : α) : Except String (Coll κ α) :=
  if hasKey c k then .error "E11000 duplicate key error" else .ok (c ++ [(k, v)])

/-- `replace_one({"_id": k}, v)`: returns `matched_count` and the new
collection. -/
def replace_one (c : Coll κ α) (k : κ) (v : α) : Nat × Coll κ α :=
  if hasKey c k then
    (1, c.map (fun p => if p.1 = k then (k, v) else p))
  else
    (0, c)

/-- Remove the first document stored under `k`. -/
def eraseKey : Coll κ α → κ → Coll κ α
  | [], _ => []
  | p :: c, k => if p.1 = k then c else p :: eraseKey c k

/-- `delete_one({"_id": k})`: returns `deleted_count` and the new
collection. -/
def delete_one (c : Coll κ α) (k : κ) : Nat × Coll κ α :=
  if hasKey c k then (1, eraseKey c k) else (0, c)

/-- Ordered `insert_many`: inserts documents in turn, aborting at the
first duplicate-key error (documents inserted before the failure stay
inserted, as with the real driver).  Returns the new collection, the
number of inserted documents and the error, if any. -/
def insert_many (c : Coll κ α) : List (κ × α) → Coll κ α × Nat × Option String
  | [] => (c, 0, none)
  | (k, v) :: rest =>
    match insert_one c k v with
    | .ok c' =>
      let (c'', n, e) := insert_many c' rest
      (c'', n + 1, e)
    | .error e => (c, 0, some e)

/-- Elasticsearch `client.index(index, id, body)`: an upsert. -/
def es_index (c : Coll κ α) (k : κ) (v : α) : Coll κ α :=
  if hasKey c k then c.map (fun p => if p.1 = k then (k, v) else p)
  else c ++ [(k, v)]

/-- Elasticsearch `client.delete(index, id)`: raises `NotFoundError`
when the document is absent. -/
def es_delete (c : Coll κ α) (k : κ) : Except String (Coll κ α) :=
  if hasKey c k then .ok (eraseKey c k)
  else .error "NotFoundError(404, document missing)"

theorem find_one_eq_none_of_not_hasKey {c : Coll κ α} {k : κ}
    (h : hasKey c k = false) : find_one c k = none := by
  unfold find_one
  have : c.find? (fun p => p.1 = k) = none := by
    rw [List.find?_eq_none]
    intro p hp
    by_contra hb
    have : c.any (fun p => p.1 = k) = true := List.any_eq_true.mpr ⟨p, hp, hb⟩
    rw [hasKey] at h
    simp [this] at h
  simp [this]

theorem find_one_append_self {c : Coll κ α} {k : κ} {v : α}
    (h : hasKey c k = false) : find_one (c ++ [(k, v)]) k = some v := by
  induction c with
  | nil => simp [find_one, List.find?]
  | cons p c ih =>
    rw [hasKey, List.any_cons] at h
    simp only [Bool.or_eq_false_iff] at h
    have hp : (decide (p.1 = k)) = false := by simpa using h.1
    simp only [find_one, List.cons_append, List.find?]
    rw [hp]
    exact ih (by simpa [hasKey] using h.2)

theorem insert_one_ok_iff {c : Coll κ α} {k : κ} {v : α} {c' : Coll κ α} :
    insert_one c k v = .ok c' ↔ hasKey c k = false ∧ c' = c ++ [(k, v)] := by
  unfold insert_one
  by_cases h : hasKey c k = true
  · simp [h]
  · simp only [Bool.not_eq_true] at h
    simp [h, eq_comm]

theorem replace_one_of_hasKey {c : Coll κ α} {k : κ} {v : α}
    (h : hasKey c k = true) :
    replace_one c k v = (1, c.map (fun p => if p.1 = k then (k, v) else p)) := by
  simp [replace_one, h]

theorem replace_one_of_not_hasKey {c : Coll κ α} {k : κ} {v : α}
    (h : hasKey c k = false) : replace_one c k v = (0, c) := by
  simp [replace_one, h]

theorem delete_one_of_not_hasKey {c : Coll κ α} {k : κ}
    (h : hasKey c k = false) : delete_one c k = (0, c) := by
  simp [delete_one, h]

theorem hasKey_eraseKey_of_nodup {c : Coll κ α} {k : κ}
    (hnd : (c.map Prod.fst).Nodup) :
    hasKey (eraseKey c k) k = false := by
  induction c with
  | nil => simp [eraseKey, hasKey]
  | cons p c ih =>
    simp only [List.map_cons, List.nodup_cons] at hnd
    by_cases hp : p.1 = k
    · subst hp
      rw [eraseKey]
      simp only [if_pos rfl]
      have hall : ∀ q ∈ c, (decide (q.1 = p.1)) = false := by
        intro q hq
        simp only [decide_eq_false_iff_not]
        intro hqk
        exact hnd.1 (hqk ▸ List.mem_map_of_mem Prod.fst hq)
      simpa [hasKey, List.any_eq_false] using hall
    · rw [eraseKey]
      simp only [if_neg hp]
      rw [hasKey, List.any_cons]
      have h1 : (decide (p.1 = k)) = false := by simpa using hp
      rw [h1]
      simpa [hasKey] using ih hnd.2

theorem find_one_eraseKey_of_nodup {c : Coll κ α} {k : κ}
    (hnd : (c.map Prod.fst).Nodup) :
    find_one (eraseKey c k) k = none :=
  find_one_eq_none_of_not_hasKey (hasKey_eraseKey_of_nodup hnd)

end KeyedCollection

/-! ## Entity model (`models.py`)

`datetime` fields are modelled as `Nat`; pydantic `default_factory`
defaults make `created_at` / `updated_at` / `enrollment_date` /
`hire_date` always present, so they are plain (non-optional) fields,
exactly as `BaseModel` guarantees. -/

/-- `SubjectEnum` from `models.py`. -/
inductive SubjectEnum where
  | mathematics | science | english | history | geography | physics
  | chemistry | biology | computer_science | art | music | physical_education
deriving DecidableEq, Repr

/-- `GatheringTypeEnum` from `models.py` (`class` is a Lean keyword, so
that constructor is `cls`). -/
inductive GatheringTypeEnum where
  | cls | workshop | seminar | conference
deriving DecidableEq, Repr

/-- `Person` model. -/
structure Person where
  id : Option String := none
  first_name : String
  last_name : String
  email : String
  phone : Option String := none
  date_of_birth : Option Nat := none
  address : Option String := none
  created_at : Nat
  updated_at : Nat
deriving DecidableEq, Repr

/-- `Student` model (Person specialization, flattened). -/
structure Student where
  id : Option String := none
  first_name : String
  last_name : String
  email : String
  phone : Option String := none
  date_of_birth : Option Nat := none
  address : Option String := none
  created_at : Nat
  updated_at : Nat
  student_id : Option String := none
  grade_level : Option Nat := none
  enrollment_date : Nat
  is_active : Bool := true
  guardian_contact : Option String := none
deriving DecidableEq, Repr

/-- `Teacher` model (Person specialization, flattened). -/
structure Teacher where
  id : Option String := none
  first_name : String
  last_name : String
  email : String
  phone : Option String := none
  date_of_birth : Option Nat := none
  address : Option String := none
  created_at : Nat
  updated_at : Nat
  employee_id : Option String := none
  subjects : List SubjectEnum := []
  hire_date : Nat
  is_active : Bool := true
  department : Option String := none
  qualification : Option String := none
deriving DecidableEq, Repr

/-- `Class` model (Gathering specialization, flattened; the `Class`
constructor defaults `gathering_type` to `class`). -/
structure Class where
  id : Option String := none
  name : String
  description : Option String := none
  gathering_type : GatheringTypeEnum := .cls
  capacity : Option Nat := none
  location : Option String := none
  created_at : Nat
  updated_at : Nat
  class_code : Option String := none
  grade_level : Option Nat := none
  academic_year : String
  semester : Option String := none
  schedule : Option Item := none
deriving DecidableEq, Repr

/-- `ClassEnrollment` join entity. -/
structure ClassEnrollment where
  id : Option String := none
  student_id : String
  class_id : String
  enrollment_date : Nat
  is_active : Bool := true
deriving DecidableEq, Repr

/-- `TeacherAssignment` join entity. -/
structure TeacherAssignment where
  id : Option String := none
  teacher_id : String
  class_id : String
  subject : String
  assignment_date : Nat
  is_active : Bool := true
deriving DecidableEq, Repr

/-- `BulkOperation` request model. -/
structure BulkOperation where
  operation_type : String
  entity_type : String
  data : List Item
  batch_size : Nat := 100
deriving DecidableEq, Repr

/-- `AggregateQuery` request model. -/
structure AggregateQuery where
  query_type : String
  filters : Option Item := none
  group_by : Option (List String) := none
  sort_by : Option String := none
  sort_order : String := "asc"
  limit : Option Nat := none
deriving DecidableEq, Repr

/-- Payload of `PersonResponse.data` (`Union[Person, Student, Teacher]`). -/
inductive PersonData where
  | person (p : Person)
  | student (s : Student)
  | teacher (t : Teacher)
deriving DecidableEq, Repr

/-- `PersonResponse` envelope. -/
structure PersonResponse where
  success : Bool
  message : String
  data : Option PersonData := none
  errors : Option (List String) := none
deriving DecidableEq, Repr

/-- `ClassResponse` envelope. -/
structure ClassResponse where
  success : Bool
  message : String
  data : Option Class := none
  errors : Option (List String) := none
deriving DecidableEq, Repr

/-- `BulkOperationResponse` envelope. -/
structure BulkOperationResponse where
  success : Bool
  message : String
  total_processed : Nat
  successful : Nat
  failed : Nat
  errors : Option (List String) := none
deriving DecidableEq, Repr

/-- Payload of `AggregateResponse.data` (`{"results": results}`; the
result rows are raw documents). -/
structure AggData where
  results : List Item
deriving DecidableEq, Repr

/-- `AggregateResponse` envelope. -/
structure AggregateResponse where
  success : Bool
  message : String
  data : Option AggData := none
  count : Option Nat := none
  errors : Option (List String) := none
deriving DecidableEq, Repr

/-! ## Document-store adapter (`MongoDBInterface` in
`database_interface.py`)

Collections are keyed by the storage-native `_id`; `_prepare_document`
duplicates the generated id into `_id`, so the key always equals the
document's `id` field.  The `uuid.uuid4()` supply is modelled by the
`gen` counter, `datetime.utcnow()` by the `now` clock. -/

/-- `_generate_id`: the `n`-th id drawn from the uuid supply. -/
def genId (n : Nat) : String := "uuid-" ++ toString n

/-- `if not doc.get('id'): doc['id'] = self._generate_id()` — keeps a
truthy id, replaces a missing or empty one, advancing the supply. -/
def resolveId (gen : Nat) : Option String → String × Nat
  | some s => if s = "" then (genId gen, gen + 1) else (s, gen)
  | none => (genId gen, gen + 1)

/-- State of the MongoDB adapter: one keyed collection per entity, the
uuid supply and the clock. -/
structure MongoState where
  persons : Coll String Person := []
  students : Coll String Student := []
  teachers : Coll String Teacher := []
  classes : Coll String Class := []
  class_enrollments : Coll String ClassEnrollment := []
  teacher_assignments : Coll String TeacherAssignment := []
  gen : Nat := 0
  now : Nat := 0
deriving DecidableEq, Repr

/-- `_prepare_document` for a `Person`: fill the id, stamp
`updated_at`, return the storage key (`_id`). -/
def preparePerson (st : MongoState) (p : Person) : String × Person × Nat :=
  let (i, gen') := resolveId st.gen p.id
  (i, { p with id := some i, updated_at := st.now }, gen')

/-- `_prepare_document` for a `Student`. -/
def prepareStudent (st : MongoState) (s : Student) : String × Student × Nat :=
  let (i, gen') := resolveId st.gen s.id
  (i, { s with id := some i, updated_at := st.now }, gen')

/-- `_prepare_document` for a `Teacher`. -/
def prepareTeacher (st : MongoState) (t : Teacher) : String × Teacher × Nat :=
  let (i, gen') := resolveId st.gen t.id
  (i, { t with id := some i, updated_at := st.now }, gen')

/-- `_prepare_document` for a `Class`. -/
def prepareClass (st : MongoState) (c : Class) : String × Class × Nat :=
  let (i, gen') := resolveId st.gen c.id
  (i, { c with id := some i, updated_at := st.now }, gen')

namespace MongoDBInterface

/-- `MongoDBInterface.create_person`. -/
def create_person (st : MongoState) (p : Person) : PersonResponse × MongoState :=
  let (k, doc, gen') := preparePerson st p
  match insert_one st.persons k doc with
  | .ok c =>
    ({ success := true, message := "Person created successfully", data := some (.person doc) },
     { st with persons := c, gen := gen' })
  | .error e =>
    ({ success := false, message := "Failed to create person: " ++ e, errors := some [e] },
     { st with gen := gen' })

/-- `MongoDBInterface.create_student`. -/
def create_student (st : MongoState) (s : Student) : PersonResponse × MongoState :=
  let (k, doc, gen') := prepareStudent st s
  match insert_one st.students k doc with
  | .ok c =>
    ({ success := true, message := "Student created successfully", data := some (.student doc) },
     { st with students := c, gen := gen' })
  | .error e =>
    ({ success := false, message := "Failed to create student: " ++ e, errors := some [e] },
     { st with gen := gen' })

/-- `MongoDBInterface.create_teacher`. -/
def create_teacher (st : MongoState) (t : Teacher) : PersonResponse × MongoState :=
  let (k, doc, gen') := prepareTeacher st t
  match insert_one st.teachers k doc with
  | .ok c =>
    ({ success := true, message := "Teacher created successfully", data := some (.teacher doc) },
     { st with teachers := c, gen := gen' })
  | .error e =>
    ({ success := false, message := "Failed to create teacher: " ++ e, errors := some [e] },
     { st with gen := gen' })

/-- `MongoDBInterface.create_class`. -/
def create_class (st : MongoState) (c : Class) : ClassResponse × MongoState :=
  let (k, doc, gen') := prepareClass st c
  match insert_one st.classes k doc with
  | .ok cs =>
    ({ success := true, message := "Class created successfully", data := some doc },
     { st with classes := cs, gen := gen' })
  | .error e =>
    ({ success := false, message := "Failed to create class: " ++ e, errors := some [e] },
     { st with gen := gen' })

/-- `MongoDBInterface.get_person`. -/
def get_person (st : MongoState) (person_id : String) : PersonResponse :=
  match find_one st.persons person_id with
  | some doc => { success := true, message := "Person found", data := some (.person doc) }
  | none => { success := false, message := "Person not found" }

/-- `MongoDBInterface.get_student`. -/
def get_student (st : MongoState) (student_id : String) : PersonResponse :=
  match find_one st.students student_id with
  | some doc => { success := true, message := "Student found", data := some (.student doc) }
  | none => { success := false, message := "Student not found" }

/-- `MongoDBInterface.get_teacher`. -/
def get_teacher (st : MongoState) (teacher_id : String) : PersonResponse :=
  match find_one st.teachers teacher_id with
  | some doc => { success := true, message := "Teacher found", data := some (.teacher doc) }
  | none => { success := false, message := "Teacher not found" }

/-- `MongoDBInterface.get_class`. -/
def get_class (st : MongoState) (class_id : String) : ClassResponse :=
  match find_one st.classes class_id with
  | some doc => { success := true, message := "Class found", data := some doc }
  | none => { success := false, message := "Class not found" }

/-- `MongoDBInterface.update_person`: full-document replace by `_id`;
the prepared document's id is forced back to `person_id`. -/
def update_person (st : MongoState) (person_id : String) (p : Person) :
    PersonResponse × MongoState :=
  let (_, doc0, gen') := preparePerson st p
  let doc := { doc0 with id := some person_id }
  let (matched, c) := replace_one st.persons person_id doc
  if matched ≠ 0 then
    ({ success := true, message := "Person updated successfully", data := some (.person doc) },
     { st with persons := c, gen := gen' })
  else
    ({ success := false, message := "Person not found" }, { st with gen := gen' })

/-- `MongoDBInterface.update_student`. -/
def update_student (st : MongoState) (student_id : String) (s : Student) :
    PersonResponse × MongoState :=
  let (_, doc0, gen') := prepareStudent st s
  let doc := { doc0 with id := some student_id }
  let (matched, c) := replace_one st.students student_id doc
  if matched ≠ 0 then
    ({ success := true, message := "Student updated successfully", data := some (.student doc) },
     { st with students := c, gen := gen' })
  else
    ({ success := false, message := "Student not found" }, { st with gen := gen' })

/-- `MongoDBInterface.update_teacher`. -/
def update_teacher (st : MongoState) (teacher_id : String) (t : Teacher) :
    PersonResponse × MongoState :=
  let (_, doc0, gen') := prepareTeacher st t
  let doc := { doc0 with id := some teacher_id }
  let (matched, c) := replace_one st.teachers teacher_id doc
  if matched ≠ 0 then
    ({ success := true, message := "Teacher updated successfully", data := some (.teacher doc) },
     { st with teachers := c, gen := gen' })
  else
    ({ success := false, message := "Teacher not found" }, { st with gen := gen' })

/-- `MongoDBInterface.update_class`. -/
def update_class (st : MongoState) (class_id : String) (c : Class) :
    ClassResponse × MongoState :=
  let (_, doc0, gen') := prepareClass st c
  let doc := { doc0 with id := some class_id }
  let (matched, cs) := replace_one st.classes class_id doc
  if matched ≠ 0 then
    ({ success := true, message := "Class updated successfully", data := some doc },
     { st with classes := cs, gen := gen' })
  else
    ({ success := false, message := "Class not found" }, { st with gen := gen' })

/-- `MongoDBInterface.delete_person`. -/
def delete_person (st : MongoState) (person_id : String) : PersonResponse × MongoState :=
  let (deleted, c) := delete_one st.persons person_id
  if deleted ≠ 0 then
    ({ success := true, message := "Person deleted successfully" }, { st with persons := c })
  else
    ({ success := false, message := "Person not found" }, st)

/-- `MongoDBInterface.delete_student`. -/
def delete_student (st : MongoState) (student_id : String) : PersonResponse × MongoState :=
  let (deleted, c) := delete_one st.students student_id
  if deleted ≠ 0 then
    ({ success := true, message := "Student deleted successfully" }, { st with students := c })
  else
    ({ success := false, message := "Student not found" }, st)

/-- `MongoDBInterface.delete_teacher`. -/
def delete_teacher (st : MongoState) (teacher_id : String) : PersonResponse × MongoState :=
  let (deleted, c) := delete_one st.teachers teacher_id
  if deleted ≠ 0 then
    ({ success := true, message := "Teacher deleted successfully" }, { st with teachers := c })
  else
    ({ success := false, message := "Teacher not found" }, st)

/-- `MongoDBInterface.delete_class`. -/
def delete_class (st : MongoState) (class_id : String) : ClassResponse × MongoState :=
  let (deleted, c) := delete_one st.classes class_id
  if deleted ≠ 0 then
    ({ success := true, message := "Class deleted successfully" }, { st with classes := c })
  else
    ({ success := false, message := "Class not found" }, st)

/-- The enrollment documents built by `add_students_to_class`: one per
student id, each with an explicitly generated id (which
`_prepare_document` then keeps), paired with its storage key. -/
def buildEnrollments (class_id : String) (now : Nat) :
    List String → Nat → List (String × ClassEnrollment) × Nat
  | [], gen => ([], gen)
  | sid :: rest, gen =>
    let e : ClassEnrollment :=
      { id := some (genId gen), student_id := sid, class_id := class_id,
        enrollment_date := now }
    let (es, gen') := buildEnrollments class_id now rest (gen + 1)
    ((genId gen, e) :: es, gen')

/-- `MongoDBInterface.add_students_to_class`: builds one enrollment per
student and hands them to `insert_many` in a single call; an
`insert_many` failure is caught and reported as an all-failed
envelope. -/
def add_students_to_class (st : MongoState) (class_id : String)
    (student_ids : List String) : BulkOperationResponse × MongoState :=
  let (docs, gen') := buildEnrollments class_id st.now student_ids st.gen
  let (c, inserted, err) := insert_many st.class_enrollments docs
  match err with
  | none =>
    ({ success := true, message := "Students added to class successfully",
       total_processed := student_ids.length, successful := inserted, failed := 0 },
     { st with class_enrollments := c, gen := gen' })
  | some e =>
    ({ success := false, message := "Failed to add students to class: " ++ e,
       total_processed := student_ids.length, successful := 0,
       failed := student_ids.length, errors := some [e] },
     { st with class_enrollments := c, gen := gen' })

/-- `MongoDBInterface.add_teacher_to_class`. -/
def add_teacher_to_class (st : MongoState) (class_id : String) (teacher_id : String)
    (subject : String) : PersonResponse × MongoState :=
  let a : TeacherAssignment :=
    { id := some (genId st.gen), teacher_id := teacher_id, class_id := class_id,
      subject := subject, assignment_date := st.now }
  match insert_one st.teacher_assignments (genId st.gen) a with
  | .ok c =>
    ({ success := true, message := "Teacher added to class successfully" },
     { st with teacher_assignments := c, gen := st.gen + 1 })
  | .error e =>
    ({ success := false, message := "Failed to add teacher to class: " ++ e,
       errors := some [e] },
     { st with gen := st.gen + 1 })

end MongoDBInterface

/-! ## Caller-supplied field agreement

`_prepare_document` touches only `id` and `updated_at`; these
predicates enumerate every other field of each entity, i.e. everything
the caller supplied (pydantic defaults included). -/

/-- The stored person agrees with the submitted person on all
caller-supplied fields. -/
def personCallerFields (d p : Person) : Prop :=
  d.first_name = p.first_name ∧ d.last_name = p.last_name ∧ d.email = p.email ∧
  d.phone = p.phone ∧ d.date_of_birth = p.date_of_birth ∧ d.address = p.address ∧
  d.created_at = p.created_at

/-- The stored student agrees with the submitted student on all
caller-supplied fields. -/
def studentCallerFields (d s : Student) : Prop :=
  d.first_name = s.first_name ∧ d.last_name = s.last_name ∧ d.email = s.email ∧
  d.phone = s.phone ∧ d.date_of_birth = s.date_of_birth ∧ d.address = s.address ∧
  d.created_at = s.created_at ∧ d.student_id = s.student_id ∧
  d.grade_level = s.grade_level ∧ d.enrollment_date = s.enrollment_date ∧
  d.is_active = s.is_active ∧ d.guardian_contact = s.guardian_contact

/-- The stored teacher agrees with the submitted teacher on all
caller-supplied fields. -/
def teacherCallerFields (d t : Teacher) : Prop :=
  d.first_name = t.first_name ∧ d.last_name = t.last_name ∧ d.email = t.email ∧
  d.phone = t.phone ∧ d.date_of_birth = t.date_of_birth ∧ d.address = t.address ∧
  d.created_at = t.created_at ∧ d.employee_id = t.employee_id ∧
  d.subjects = t.subjects ∧ d.hire_date = t.hire_date ∧
  d.is_active = t.is_active ∧ d.department = t.department ∧
  d.qualification = t.qualification

/-- The stored class agrees with the submitted class on all
caller-supplied fields. -/
def classCallerFields (d c : Class) : Prop :=
  d.name = c.name ∧ d.description = c.description ∧
  d.gathering_type = c.gathering_type ∧ d.capacity = c.capacity ∧
  d.location = c.location ∧ d.created_at = c.created_at ∧
  d.class_code = c.class_code ∧ d.grade_level = c.grade_level ∧
  d.academic_year = c.academic_year ∧ d.semester = c.semester ∧
  d.schedule = c.schedule

/-- Create-then-get round trip for a person: the create response
carries a stored document with a populated id and timestamps, equal to
the submitted person on every caller-supplied field, and `get` on the
returned id finds exactly that document. -/
def createGetRoundtripPerson (st : MongoState) (p : Person) : Prop :=
  ∃ d i, (MongoDBInterface.create_person st p).1.data = some (.person d) ∧
    d.id = some i ∧ d.updated_at = st.now ∧ personCallerFields d p ∧
    MongoDBInterface.get_person (MongoDBInterface.create_person st p).2 i =
      { success := true, message := "Person found", data := some (.person d) }

/-- Create-then-get round trip for a student. -/
def createGetRoundtripStudent (st : MongoState) (s : Student) : Prop :=
  ∃ d i, (MongoDBInterface.create_student st s).1.data = some (.student d) ∧
    d.id = some i ∧ d.updated_at = st.now ∧ studentCallerFields d s ∧
    MongoDBInterface.get_student (MongoDBInterface.create_student st s).2 i =
      { success := true, message := "Student found", data := some (.student d) }

/-- Create-then-get round trip for a teacher. -/
def createGetRoundtripTeacher (st : MongoState) (t : Teacher) : Prop :=
  ∃ d i, (MongoDBInterface.create_teacher st t).1.data = some (.teacher d) ∧
    d.id = some i ∧ d.updated_at = st.now ∧ teacherCallerFields d t ∧
    MongoDBInterface.get_teacher (MongoDBInterface.create_teacher st t).2 i =
      { success := true, message := "Teacher found", data := some (.teacher d) }

/-- Create-then-get round trip for a class. -/
def createGetRoundtripClass (st : MongoState) (c : Class) : Prop :=
  ∃ d i, (MongoDBInterface.create_class st c).1.data = some d ∧
    d.id = some i ∧ d.updated_at = st.now ∧ classCallerFields d c ∧
    MongoDBInterface.get_class (MongoDBInterface.create_class st c).2 i =
      { success := true, message := "Class found", data := some d }

theorem create_get_person (st : MongoState) (p : Person)
    (hsucc : (MongoDBInterface.create_person st p).1.success = true) :
    createGetRoundtripPerson st p := by
  set i := (resolveId st.gen p.id).1 with hi
  set doc : Person := { p with id := some i, updated_at := st.now } with hdoc
  have hcp : MongoDBInterface.create_person st p =
      (match insert_one st.persons i doc with
       | .ok c =>
         ({ success := true, message := "Person created successfully",
            data := some (.person doc) },
          { st with persons := c, gen := (resolveId st.gen p.id).2 })
       | .error e =>
         ({ success := false, message := "Failed to create person: " ++ e,
            errors := some [e] },
          { st with gen := (resolveId st.gen p.id).2 })) := rfl
  cases hins : insert_one st.persons i doc with
  | error e => rw [hcp, hins] at hsucc; simp at hsucc
  | ok c =>
    obtain ⟨hk, hc⟩ := insert_one_ok_iff.mp hins
    refine ⟨doc, i, ?_, rfl, rfl, ⟨rfl, rfl, rfl, rfl, rfl, rfl, rfl⟩, ?_⟩
    · rw [hcp, hins]
    · rw [hcp, hins]
      simp only [MongoDBInterface.get_person]
      rw [hc, find_one_append_self hk]

theorem create_get_student (st : MongoState) (s : Student)
    (hsucc : (MongoDBInterface.create_student st s).1.success = true) :
    createGetRoundtripStudent st s := by
  set i := (resolveId st.gen s.id).1 with hi
  set doc : Student := { s with id := some i, updated_at := st.now } with hdoc
  have hcp : MongoDBInterface.create_student st s =
      (match insert_one st.students i doc with
       | .ok c =>
         ({ success := true, message := "Student created successfully",
            data := some (.student doc) },
          { st with students := c, gen := (resolveId st.gen s.id).2 })
       | .error e =>
         ({ success := false, message := "Failed to create student: " ++ e,
            errors := some [e] },
          { st with gen := (resolveId st.gen s.id).2 })) := rfl
  cases hins : insert_one st.students i doc with
  | error e => rw [hcp, hins] at hsucc; simp at hsucc
  | ok c =>
    obtain ⟨hk, hc⟩ := insert_one_ok_iff.mp hins
    refine ⟨doc, i, ?_, rfl, rfl,
      ⟨rfl, rfl, rfl, rfl, rfl, rfl, rfl, rfl, rfl, rfl, rfl, rfl⟩, ?_⟩
    · rw [hcp, hins]
    · rw [hcp, hins]
      simp only [MongoDBInterface.get_student]
      rw [hc, find_one_append_self hk]

theorem create_get_teacher (st : MongoState) (t : Teacher)
    (hsucc : (MongoDBInterface.create_teacher st t).1.success = true) :
    createGetRoundtripTeacher st t := by
  set i := (resolveId st.gen t.id).1 with hi
  set doc : Teacher := { t with id := some i, updated_at := st.now } with hdoc
  have hcp : MongoDBInterface.create_teacher st t =
      (match insert_one st.teachers i doc with
       | .ok c =>
         ({ success := true, message := "Teacher created successfully",
            data := some (.teacher doc) },
          { st with teachers := c, gen := (resolveId st.gen t.id).2 })
       | .error e =>
         ({ success := false, message := "Failed to create teacher: " ++ e,
            errors := some [e] },
          { st with gen := (resolveId st.gen t.id).2 })) := rfl
  cases hins : insert_one st.teachers i doc with
  | error e => rw [hcp, hins] at hsucc; simp at hsucc
  | ok c =>
    obtain ⟨hk, hc⟩ := insert_one_ok_iff.mp hins
    refine ⟨doc, i, ?_, rfl, rfl,
      ⟨rfl, rfl, rfl, rfl, rfl, rfl, rfl, rfl, rfl, rfl, rfl, rfl, rfl⟩, ?_⟩
    · rw [hcp, hins]
    · rw [hcp, hins]
      simp only [MongoDBInterface.get_teacher]
      rw [hc, find_one_append_self hk]

theorem create_get_class (st : MongoState) (c : Class)
    (hsucc : (MongoDBInterface.create_class st c).1.success = true) :
    createGetRoundtripClass st c := by
  set i := (resolveId st.gen c.id).1 with hi
  set doc : Class := { c with id := some i, updated_at := st.now } with hdoc
  have hcp : MongoDBInterface.create_class st c =
      (match insert_one st.classes i doc with
       | .ok cs =>
         ({ success := true, message := "Class created successfully",
            data := some doc },
          { st with classes := cs, gen := (resolveId st.gen c.id).2 })
       | .error e =>
         ({ success := false, message := "Failed to create class: " ++ e,
            errors := some [e] },
          { st with gen := (resolveId st.gen c.id).2 })) := rfl
  cases hins : insert_one st.classes i doc with
  | error e => rw [hcp, hins] at hsucc; simp at hsucc
  | ok cs =>
    obtain ⟨hk, hc⟩ := insert_one_ok_iff.mp hins
    refine ⟨doc, i, ?_, rfl, rfl,
      ⟨rfl, rfl, rfl, rfl, rfl, rfl, rfl, rfl, rfl, rfl, rfl⟩, ?_⟩
    · rw [hcp, hins]
    · rw [hcp, hins]
      simp only [MongoDBInterface.get_class]
      rw [hc, find_one_append_self hk]

/-- C1.  For every entity kind (person, student, teacher, class) and
every entity, when `create_*` succeeds, `get_*` with the id returned by
`create_*` yields a success envelope whose data equals the submitted
entity on all caller-supplied fields, with `id`, `created_at` and
`updated_at` populated (`created_at` is always set by the pydantic
default factory; `updated_at` is stamped with the current clock by
`_prepare_document`). -/
theorem C1_create_then_get_roundtrip (st : MongoState)
    (p : Person) (s : Student) (t : Teacher) (c : Class) :
    ((MongoDBInterface.create_person st p).1.success = true →
      createGetRoundtripPerson st p) ∧
    ((MongoDBInterface.create_student st s).1.success = true →
      createGetRoundtripStudent st s) ∧
    ((MongoDBInterface.create_teacher st t).1.success = true →
      createGetRoundtripTeacher st t) ∧
    ((MongoDBInterface.create_class st c).1.success = true →
      createGetRoundtripClass st c) :=
  ⟨create_get_person st p, create_get_student st s,
   create_get_teacher st t, create_get_class st c⟩

/-- Sample person used to exercise the proved contracts. -/
def p0 : Person :=
  { first_name := "Ada", last_name := "Lovelace", email := "ada@example.com",
    created_at := 1, updated_at := 1 }

/-- Sample student. -/
def s0 : Student :=
  { first_name := "Alan", last_name := "Turing", email := "alan@example.com",
    phone := some "555-0100", created_at := 1, updated_at := 1,
    enrollment_date := 2, grade_level := some 7 }

/-- Sample teacher. -/
def t0 : Teacher :=
  { first_name := "Grace", last_name := "Hopper", email := "grace@example.com",
    created_at := 1, updated_at := 1, hire_date := 3,
    subjects := [.mathematics] }

/-- Sample class. -/
def c0 : Class :=
  { name := "Algebra", academic_year := "2024-2025", created_at := 1,
    updated_at := 1 }

/-- Empty adapter state with the clock at 5. -/
def st0 : MongoState := { now := 5 }

/-- Witness for C1: on the empty store all four creates succeed and the
round trips hold. -/
theorem C1_witness :
    createGetRoundtripPerson st0 p0 ∧ createGetRoundtripStudent st0 s0 ∧
    createGetRoundtripTeacher st0 t0 ∧ createGetRoundtripClass st0 c0 :=
  ⟨(C1_create_then_get_roundtrip st0 p0 s0 t0 c0).1 (by decide),
   (C1_create_then_get_roundtrip st0 p0 s0 t0 c0).2.1 (by decide),
   (C1_create_then_get_roundtrip st0 p0 s0 t0 c0).2.2.1 (by decide),
   (C1_create_then_get_roundtrip st0 p0 s0 t0 c0).2.2.2 (by decide)⟩

/-! ## C3: not-found semantics of update / delete in the document-store
adapter. -/

theorem update_person_missing (st : MongoState) (i : String) (p : Person)
    (h : hasKey st.persons i = false) :
    (MongoDBInterface.update_person st i p).1 =
      { success := false, message := "Person not found" } := by
  simp [MongoDBInterface.update_person, replace_one_of_not_hasKey h]

theorem update_student_missing (st : MongoState) (i : String) (s : Student)
    (h : hasKey st.students i = false) :
    (MongoDBInterface.update_student st i s).1 =
      { success := false, message := "Student not found" } := by
  simp [MongoDBInterface.update_student, replace_one_of_not_hasKey h]

theorem update_teacher_missing (st : MongoState) (i : String) (t : Teacher)
    (h : hasKey st.teachers i = false) :
    (MongoDBInterface.update_teacher st i t).1 =
      { success := false, message := "Teacher not found" } := by
  simp [MongoDBInterface.update_teacher, replace_one_of_not_hasKey h]

theorem update_class_missing (st : MongoState) (i : String) (c : Class)
    (h : hasKey st.classes i = false) :
    (MongoDBInterface.update_class st i c).1 =
      { success := false, message := "Class not found" } := by
  simp [MongoDBInterface.update_class, replace_one_of_not_hasKey h]

theorem delete_person_missing (st : MongoState) (i : String)
    (h : hasKey st.persons i = false) :
    MongoDBInterface.delete_person st i =
      ({ success := false, message := "Person not found" }, st) := by
  simp [MongoDBInterface.delete_person, delete_one_of_not_hasKey h]

theorem delete_student_missing (st : MongoState) (i : String)
    (h : hasKey st.students i = false) :
    MongoDBInterface.delete_student st i =
      ({ success := false, message := "Student not found" }, st) := by
  simp [MongoDBInterface.delete_student, delete_one_of_not_hasKey h]

theorem delete_teacher_missing (st : MongoState) (i : String)
    (h : hasKey st.teachers i = false) :
    MongoDBInterface.delete_teacher st i =
      ({ success := false, message := "Teacher not found" }, st) := by
  simp [MongoDBInterface.delete_teacher, delete_one_of_not_hasKey h]

theorem delete_class_missing (st : MongoState) (i : String)
    (h : hasKey st.classes i = false) :
    MongoDBInterface.delete_class st i =
      ({ success := false, message := "Class not found" }, st) := by
  simp [MongoDBInterface.delete_class, delete_one_of_not_hasKey h]

theorem delete_then_get_person (st : MongoState) (i : String)
    (hnd : (st.persons.map Prod.fst).Nodup)
    (hsucc : (MongoDBInterface.delete_person st i).1.success = true) :
    MongoDBInterface.get_person (MongoDBInterface.delete_person st i).2 i =
      { success := false, message := "Person not found" } := by
  by_cases hk : hasKey st.persons i
  · have hdel : delete_one st.persons i = (1, eraseKey st.persons i) := by
      simp [delete_one, hk]
    simp [MongoDBInterface.delete_person, hdel, MongoDBInterface.get_person,
      find_one_eraseKey_of_nodup hnd]
  · rw [delete_person_missing st i (by simpa using hk)] at hsucc
    simp at hsucc

theorem delete_then_get_student (st : MongoState) (i : String)
    (hnd : (st.students.map Prod.fst).Nodup)
    (hsucc : (MongoDBInterface.delete_student st i).1.success = true) :
    MongoDBInterface.get_student (MongoDBInterface.delete_student st i).2 i =
      { success := false, message := "Student not found" } := by
  by_cases hk : hasKey st.students i
  · have hdel : delete_one st.students i = (1, eraseKey st.students i) := by
      simp [delete_one, hk]
    simp [MongoDBInterface.delete_student, hdel, MongoDBInterface.get_student,
      find_one_eraseKey_of_nodup hnd]
  · rw [delete_student_missing st i (by simpa using hk)] at hsucc
    simp at hsucc

theorem delete_then_get_teacher (st : MongoState) (i : String)
    (hnd : (st.teachers.map Prod.fst).Nodup)
    (hsucc : (MongoDBInterface.delete_teacher st i).1.success = true) :
    MongoDBInterface.get_teacher (MongoDBInterface.delete_teacher st i).2 i =
      { success := false, message := "Teacher not found" } := by
  by_cases hk : hasKey st.teachers i
  · have hdel : delete_one st.teachers i = (1, eraseKey st.teachers i) := by
      simp [delete_one, hk]
    simp [MongoDBInterface.delete_teacher, hdel, MongoDBInterface.get_teacher,
      find_one_eraseKey_of_nodup hnd]
  · rw [delete_teacher_missing st i (by simpa using hk)] at hsucc
    simp at hsucc

theorem delete_then_get_class (st : MongoState) (i : String)
    (hnd : (st.classes.map Prod.fst).Nodup)
    (hsucc : (MongoDBInterface.delete_class st i).1.success = true) :
    MongoDBInterface.get_class (MongoDBInterface.delete_class st i).2 i =
      { success := false, message := "Class not found" } := by
  by_cases hk : hasKey st.classes i
  · have hdel : delete_one st.classes i = (1, eraseKey st.classes i) := by
      simp [delete_one, hk]
    simp [MongoDBInterface.delete_class, hdel, MongoDBInterface.get_class,
      find_one_eraseKey_of_nodup hnd]
  · rw [delete_class_missing st i (by simpa using hk)] at hsucc
    simp at hsucc

/-- C3.  In the document-store adapter, for every entity kind: update
on an id matching zero stored documents returns a not-found failure
envelope; delete removing zero documents returns a not-found failure
envelope (and leaves the state untouched); and a successful delete
followed by get on the same id reports not-found (keys are unique in
every state reachable through `insert_one`, hence the `Nodup`
hypotheses). -/
theorem C3_update_delete_not_found (st : MongoState) (i : String)
    (p : Person) (s : Student) (t : Teacher) (c : Class) :
    (hasKey st.persons i = false →
      (MongoDBInterface.update_person st i p).1 =
        { success := false, message := "Person not found" } ∧
      MongoDBInterface.delete_person st i =
        ({ success := false, message := "Person not found" }, st)) ∧
    (hasKey st.students i = false →
      (MongoDBInterface.update_student st i s).1 =
        { success := false, message := "Student not found" } ∧
      MongoDBInterface.delete_student st i =
        ({ success := false, message := "Student not found" }, st)) ∧
    (hasKey st.teachers i = false →
      (MongoDBInterface.update_teacher st i t).1 =
        { success := false, message := "Teacher not found" } ∧
      MongoDBInterface.delete_teacher st i =
        ({ success := false, message := "Teacher not found" }, st)) ∧
    (hasKey st.classes i = false →
      (MongoDBInterface.update_class st i c).1 =
        { success := false, message := "Class not found" } ∧
      MongoDBInterface.delete_class st i =
        ({ success := false, message := "Class not found" }, st)) ∧
    ((st.persons.map Prod.fst).Nodup →
      (MongoDBInterface.delete_person st i).1.success = true →
      MongoDBInterface.get_person (MongoDBInterface.delete_person st i).2 i =
        { success := false, message := "Person not found" }) ∧
    ((st.students.map Prod.fst).Nodup →
      (MongoDBInterface.delete_student st i).1.success = true →
      MongoDBInterface.get_student (MongoDBInterface.delete_student st i).2 i =
        { success := false, message := "Student not found" }) ∧
    ((st.teachers.map Prod.fst).Nodup →
      (MongoDBInterface.delete_teacher st i).1.success = true →
      MongoDBInterface.get_teacher (MongoDBInterface.delete_teacher st i).2 i =
        { success := false, message := "Teacher not found" }) ∧
    ((st.classes.map Prod.fst).Nodup →
      (MongoDBInterface.delete_class st i).1.success = true →
      MongoDBInterface.get_class (MongoDBInterface.delete_class st i).2 i =
        { success := false, message := "Class not found" }) :=
  ⟨fun h => ⟨update_person_missing st i p h, delete_person_missing st i h⟩,
   fun h => ⟨update_student_missing st i s h, delete_student_missing st i h⟩,
   fun h => ⟨update_teacher_missing st i t h, delete_teacher_missing st i h⟩,
   fun h => ⟨update_class_missing st i c h, delete_class_missing st i h⟩,
   delete_then_get_person st i, delete_then_get_student st i,
   delete_then_get_teacher st i, delete_then_get_class st i⟩

/-- A one-record-per-collection state to exercise C3. -/
def st1 : MongoState :=
  { persons := [("p1", p0)], students := [("s1", s0)], teachers := [("t1", t0)],
    classes := [("c1", c0)], now := 5 }

/-- Witness for C3: on a concrete store, update and delete of the
absent id "zz" report not-found for all four kinds, and deleting the
present records then getting them reports not-found. -/
theorem C3_witness :
    ((MongoDBInterface.update_student st1 "zz" s0).1 =
      { success := false, message := "Student not found" } ∧
     MongoDBInterface.delete_student st1 "zz" =
      ({ success := false, message := "Student not found" }, st1)) ∧
    ((MongoDBInterface.update_person st1 "zz" p0).1 =
      { success := false, message := "Person not found" } ∧
     MongoDBInterface.delete_person st1 "zz" =
      ({ success := false, message := "Person not found" }, st1)) ∧
    ((MongoDBInterface.update_teacher st1 "zz" t0).1 =
      { success := false, message := "Teacher not found" } ∧
     MongoDBInterface.delete_teacher st1 "zz" =
      ({ success := false, message := "Teacher not found" }, st1)) ∧
    ((MongoDBInterface.update_class st1 "zz" c0).1 =
      { success := false, message := "Class not found" } ∧
     MongoDBInterface.delete_class st1 "zz" =
      ({ success := false, message := "Class not found" }, st1)) ∧
    MongoDBInterface.get_person (MongoDBInterface.delete_person st1 "p1").2 "p1" =
      { success := false, message := "Person not found" } ∧
    MongoDBInterface.get_student (MongoDBInterface.delete_student st1 "s1").2 "s1" =
      { success := false, message := "Student not found" } ∧
    MongoDBInterface.get_teacher (MongoDBInterface.delete_teacher st1 "t1").2 "t1" =
      { success := false, message := "Teacher not found" } ∧
    MongoDBInterface.get_class (MongoDBInterface.delete_class st1 "c1").2 "c1" =
      { success := false, message := "Class not found" } :=
  ⟨(C3_update_delete_not_found st1 "zz" p0 s0 t0 c0).2.1 (by decide),
   (C3_update_delete_not_found st1 "zz" p0 s0 t0 c0).1 (by decide),
   (C3_update_delete_not_found st1 "zz" p0 s0 t0 c0).2.2.1 (by decide),
   (C3_update_delete_not_found st1 "zz" p0 s0 t0 c0).2.2.2.1 (by decide),
   (C3_update_delete_not_found st1 "p1" p0 s0 t0 c0).2.2.2.2.1 (by decide) (by decide),
   (C3_update_delete_not_found st1 "s1" p0 s0 t0 c0).2.2.2.2.2.1 (by decide) (by decide),
   (C3_update_delete_not_found st1 "t1" p0 s0 t0 c0).2.2.2.2.2.2.1 (by decide) (by decide),
   (C3_update_delete_not_found st1 "c1" p0 s0 t0 c0).2.2.2.2.2.2.2 (by decide) (by decide)⟩

/-! ## Relational adapter (`postgresql_interface.py`) — enrollment slice

`_create_tables` declares `class_enrollments` with
`student_id ... REFERENCES students(id)`, `class_id ... REFERENCES
classes(id)` and `UNIQUE(student_id, class_id)`; an INSERT violating
any of these raises, which `add_students_to_class` catches per item. -/

/-- A row of the `class_enrollments` table. -/
structure PGEnrollmentRow where
  id : String
  student_id : String
  class_id : String
  enrollment_date : Nat
  is_active : Bool
deriving DecidableEq, Repr

/-- State of the relational adapter (the slice the claims need):
primary keys of `students` and `classes`, the `class_enrollments`
rows, the uuid supply and the clock. -/
structure PGState where
  students : List String := []
  classes : List String := []
  class_enrollments : List PGEnrollmentRow := []
  gen : Nat := 0
  now : Nat := 0
deriving DecidableEq, Repr

/-- `INSERT INTO class_enrollments ...`: raises on a foreign-key
violation or on a duplicate `(student_id, class_id)` pair (the
table-level `UNIQUE` constraint), otherwise appends the row. -/
def pgEnrollInsert (st : PGState) (eid sid cid : String) : Except String PGState :=
  if ¬ st.students.contains sid then
    .error "insert or update on table class_enrollments violates foreign key constraint"
  else if ¬ st.classes.contains cid then
    .error "insert or update on table class_enrollments violates foreign key constraint"
  else if st.class_enrollments.any (fun r => r.student_id = sid ∧ r.class_id = cid) then
    .error "duplicate key value violates unique constraint class_enrollments_student_id_class_id_key"
  else
    .ok { st with class_enrollments :=
      st.class_enrollments ++
        [{ id := eid, student_id := sid, class_id := cid,
           enrollment_date := st.now, is_active := true }] }

namespace PostgreSQLInterface

/-- The per-student loop of `add_students_to_class`: one INSERT per
student inside one acquired connection, each in its own `try/except`;
returns the final state and the accumulated
`(successful, failed, errors)`. -/
def enrollLoop (cid : String) : PGState → List String → PGState × Nat × Nat × List String
  | st, [] => (st, 0, 0, [])
  | st, sid :: rest =>
    let eid := genId st.gen
    let st1 := { st with gen := st.gen + 1 }
    match pgEnrollInsert st1 eid sid cid with
    | .ok st2 =>
      let (st', s, f, es) := enrollLoop cid st2 rest
      (st', s + 1, f, es)
    | .error e =>
      let (st', s, f, es) := enrollLoop cid st1 rest
      (st', s, f + 1, ("Failed to enroll student " ++ sid ++ ": " ++ e) :: es)

/-- `PostgreSQLInterface.add_students_to_class`. -/
def add_students_to_class (st : PGState) (class_id : String)
    (student_ids : List String) : BulkOperationResponse × PGState :=
  let (st', s, f, es) := enrollLoop class_id st student_ids
  ({ success := decide (f = 0), message := "Students added to class",
     total_processed := student_ids.length, successful := s, failed := f,
     errors := if es = [] then none else some es }, st')

end PostgreSQLInterface

/-! ## Search-index adapter (`elasticsearch_interface.py`) — CRUD and
relationship slice

Documents are addressed by index + id.  `client.index` is an upsert;
`client.get` and `client.delete` raise `NotFoundError` for an absent
id, which the adapter catches into a failure envelope. -/

/-- The exception text of an Elasticsearch 404. -/
def esNotFound : String := "NotFoundError(404, document missing)"

/-- State of the search-index adapter: one index per entity. -/
structure ESState where
  persons : Coll String Person := []
  students : Coll String Student := []
  teachers : Coll String Teacher := []
  classes : Coll String Class := []
  class_enrollments : Coll String ClassEnrollment := []
  gen : Nat := 0
  now : Nat := 0
deriving DecidableEq, Repr

/-- `_prepare_document` of the search-index adapter for a `Person`
(identifier generation mirrors the document-store adapter). -/
def esPreparePerson (st : ESState) (p : Person) : String × Person × Nat :=
  let (i, gen') := resolveId st.gen p.id
  (i, { p with id := some i, updated_at := st.now }, gen')

/-- `_prepare_document` of the search-index adapter for a `Student`. -/
def esPrepareStudent (st : ESState) (s : Student) : String × Student × Nat :=
  let (i, gen') := resolveId st.gen s.id
  (i, { s with id := some i, updated_at := st.now }, gen')

/-- `_prepare_document` of the search-index adapter for a `Teacher`. -/
def esPrepareTeacher (st : ESState) (t : Teacher) : String × Teacher × Nat :=
  let (i, gen') := resolveId st.gen t.id
  (i, { t with id := some i, updated_at := st.now }, gen')

/-- `_prepare_document` of the search-index adapter for a `Class`. -/
def esPrepareClass (st : ESState) (c : Class) : String × Class × Nat :=
  let (i, gen') := resolveId st.gen c.id
  (i, { c with id := some i, updated_at := st.now }, gen')

namespace ElasticsearchInterface

/-- `ElasticsearchInterface.get_person` (`client.get` raises
`NotFoundError` for an absent id, caught into a failure envelope). -/
def get_person (st : ESState) (person_id : String) : PersonResponse :=
  match find_one st.persons person_id with
  | some doc => { success := true, message := "Person found", data := some (.person doc) }
  | none =>
    { success := false, message := "Failed to get person: " ++ esNotFound,
      errors := some [esNotFound] }

/-- `ElasticsearchInterface.get_student`. -/
def get_student (st : ESState) (student_id : String) : PersonResponse :=
  match find_one st.students student_id with
  | some doc => { success := true, message := "Student found", data := some (.student doc) }
  | none =>
    { success := false, message := "Failed to get student: " ++ esNotFound,
      errors := some [esNotFound] }

/-- `ElasticsearchInterface.update_person`: prepares the document,
forces its id to `person_id` and calls `client.index` — an upsert that
succeeds whether or not the id was present. -/
def update_person (st : ESState) (person_id : String) (p : Person) :
    PersonResponse × ESState :=
  let (_, doc0, gen') := esPreparePerson st p
  let doc := { doc0 with id := some person_id }
  ({ success := true, message := "Person updated successfully", data := some (.person doc) },
   { st with persons := es_index st.persons person_id doc, gen := gen' })

/-- `ElasticsearchInterface.update_student`. -/
def update_student (st : ESState) (student_id : String) (s : Student) :
    PersonResponse × ESState :=
  let (_, doc0, gen') := esPrepareStudent st s
  let doc := { doc0 with id := some student_id }
  ({ success := true, message := "Student updated successfully", data := some (.student doc) },
   { st with students := es_index st.students student_id doc, gen := gen' })

/-- `ElasticsearchInterface.update_teacher`. -/
def update_teacher (st : ESState) (teacher_id : String) (t : Teacher) :
    PersonResponse × ESState :=
  let (_, doc0, gen') := esPrepareTeacher st t
  let doc := { doc0 with id := some teacher_id }
  ({ success := true, message := "Teacher updated successfully", data := some (.teacher doc) },
   { st with teachers := es_index st.teachers teacher_id doc, gen := gen' })

/-- `ElasticsearchInterface.update_class`. -/
def update_class (st : ESState) (class_id : String) (c : Class) :
    ClassResponse × ESState :=
  let (_, doc0, gen') := esPrepareClass st c
  let doc := { doc0 with id := some class_id }
  ({ success := true, message := "Class updated successfully", data := some doc },
   { st with classes := es_index st.classes class_id doc, gen := gen' })

/-- `ElasticsearchInterface.delete_person`: `client.delete` raises
`NotFoundError` for an absent id, caught into a failure envelope. -/
def delete_person (st : ESState) (person_id : String) : PersonResponse × ESState :=
  match es_delete st.persons person_id with
  | .ok c =>
    ({ success := true, message := "Person deleted successfully" }, { st with persons := c })
  | .error e =>
    ({ success := false, message := "Failed to delete person: " ++ e, errors := some [e] }, st)

/-- `ElasticsearchInterface.delete_student`. -/
def delete_student (st : ESState) (student_id : String) : PersonResponse × ESState :=
  match es_delete st.students student_id with
  | .ok c =>
    ({ success := true, message := "Student deleted successfully" }, { st with students := c })
  | .error e =>
    ({ success := false, message := "Failed to delete student: " ++ e, errors := some [e] }, st)

/-- `ElasticsearchInterface.delete_teacher`. -/
def delete_teacher (st : ESState) (teacher_id : String) : PersonResponse × ESState :=
  match es_delete st.teachers teacher_id with
  | .ok c =>
    ({ success := true, message := "Teacher deleted successfully" }, { st with teachers := c })
  | .error e =>
    ({ success := false, message := "Failed to delete teacher: " ++ e, errors := some [e] }, st)

/-- `ElasticsearchInterface.delete_class`. -/
def delete_class (st : ESState) (class_id : String) : ClassResponse × ESState :=
  match es_delete st.classes class_id with
  | .ok c =>
    ({ success := true, message := "Class deleted successfully" }, { st with classes := c })
  | .error e =>
    ({ success := false, message := "Failed to delete class: " ++ e, errors := some [e] }, st)

/-- `ElasticsearchInterface.add_students_to_class`: builds one
enrollment document per student (same construction as the
document-store adapter) and submits index actions through
`async_bulk`; index actions are upserts, so every action succeeds and
the envelope reports all successful. -/
def add_students_to_class (st : ESState) (class_id : String)
    (student_ids : List String) : BulkOperationResponse × ESState :=
  let (docs, gen') := MongoDBInterface.buildEnrollments class_id st.now student_ids st.gen
  let c := docs.foldl (fun acc kv => es_index acc kv.1 kv.2) st.class_enrollments
  ({ success := true, message := "Students added to class",
     total_processed := student_ids.length, successful := docs.length, failed := 0 },
   { st with class_enrollments := c, gen := gen' })

end ElasticsearchInterface

/-! ## C6: the at-most-once active-enrollment invariant. -/

/-- Number of active enrollment records for a `(student, class)` pair
in a document-store / search-index enrollment collection. -/
def activeEnrollCount (l : Coll String ClassEnrollment) (sid cid : String) : Nat :=
  (l.filter (fun kv =>
    kv.2.student_id == sid && kv.2.class_id == cid && kv.2.is_active)).length

/-- First enrollment of student "s1" in class "c1" on the empty
document store. -/
def enrollOnce : BulkOperationResponse × MongoState :=
  MongoDBInterface.add_students_to_class st0 "c1" ["s1"]

/-- Second enrollment of the same pair. -/
def enrollTwice : BulkOperationResponse × MongoState :=
  MongoDBInterface.add_students_to_class enrollOnce.2 "c1" ["s1"]

/-- C6 counterexample: in the document-store adapter, enrolling the
same `(student, class)` pair twice reports success both times and
leaves TWO active enrollment records for the pair — a second silent
active-enrollment record, so the claimed invariant fails. -/
theorem C6_counterexample :
    enrollOnce.1.success = true ∧ enrollTwice.1.success = true ∧
    activeEnrollCount enrollTwice.2.class_enrollments "s1" "c1" = 2 := by decide

theorem mongo_enroll_appends (st : MongoState) (cid sid : String)
    (hsucc : (MongoDBInterface.add_students_to_class st cid [sid]).1.success = true) :
    activeEnrollCount
        (MongoDBInterface.add_students_to_class st cid [sid]).2.class_enrollments sid cid
      = activeEnrollCount st.class_enrollments sid cid + 1 := by
  by_cases hk : hasKey st.class_enrollments (genId st.gen)
  · have hfail : (MongoDBInterface.add_students_to_class st cid [sid]).1.success = false := by
      simp [MongoDBInterface.add_students_to_class, MongoDBInterface.buildEnrollments,
        insert_many, insert_one, hk]
    rw [hfail] at hsucc
    cases hsucc
  · have hk' : hasKey st.class_enrollments (genId st.gen) = false := by simpa using hk
    simp [MongoDBInterface.add_students_to_class, MongoDBInterface.buildEnrollments,
      insert_many, insert_one, hk', activeEnrollCount, List.filter_append]

theorem es_enroll_appends (st : ESState) (cid sid : String)
    (hfresh : hasKey st.class_enrollments (genId st.gen) = false) :
    (ElasticsearchInterface.add_students_to_class st cid [sid]).1.success = true ∧
    activeEnrollCount
        (ElasticsearchInterface.add_students_to_class st cid [sid]).2.class_enrollments sid cid
      = activeEnrollCount st.class_enrollments sid cid + 1 := by
  refine ⟨rfl, ?_⟩
  simp [ElasticsearchInterface.add_students_to_class, MongoDBInterface.buildEnrollments,
    es_index, hfresh, activeEnrollCount, List.filter_append]

theorem pg_enroll_duplicate (st : PGState) (cid sid : String)
    (hdup : st.class_enrollments.any
      (fun r => r.student_id = sid ∧ r.class_id = cid) = true) :
    (PostgreSQLInterface.add_students_to_class st cid [sid]).1.successful = 0 ∧
    (PostgreSQLInterface.add_students_to_class st cid [sid]).1.failed = 1 ∧
    (PostgreSQLInterface.add_students_to_class st cid [sid]).1.success = false ∧
    (PostgreSQLInterface.add_students_to_class st cid [sid]).2.class_enrollments
      = st.class_enrollments := by
  have hdup' : ∃ x ∈ st.class_enrollments, x.student_id = sid ∧ x.class_id = cid := by
    simpa using List.any_eq_true.mp hdup
  by_cases h1 : sid ∈ st.students
  · by_cases h2 : cid ∈ st.classes
    · refine ⟨?_, ?_, ?_, ?_⟩ <;>
        simp [PostgreSQLInterface.add_students_to_class, PostgreSQLInterface.enrollLoop,
          pgEnrollInsert, h1, h2, hdup']
    · refine ⟨?_, ?_, ?_, ?_⟩ <;>
        simp [PostgreSQLInterface.add_students_to_class, PostgreSQLInterface.enrollLoop,
          pgEnrollInsert, h1, h2]
  · refine ⟨?_, ?_, ?_, ?_⟩ <;>
      simp [PostgreSQLInterface.add_students_to_class, PostgreSQLInterface.enrollLoop,
        pgEnrollInsert, h1]

/-- C6 as amended.  The at-most-once active-enrollment invariant holds
only in the relational backend, whose `UNIQUE(student_id, class_id)`
constraint turns a duplicate enrollment into a handled per-item
failure in the envelope with the table unchanged; the document-store
adapter appends a fresh active enrollment record on every successful
call (so a second call silently duplicates the pair), and the
search-index adapter likewise appends a fresh record and reports
success.  No backend raises an unhandled exception. -/
theorem C6_amended (stm : MongoState) (ste : ESState) (stp : PGState)
    (cid sid : String) :
    ((MongoDBInterface.add_students_to_class stm cid [sid]).1.success = true →
      activeEnrollCount
          (MongoDBInterface.add_students_to_class stm cid [sid]).2.class_enrollments sid cid
        = activeEnrollCount stm.class_enrollments sid cid + 1) ∧
    (hasKey ste.class_enrollments (genId ste.gen) = false →
      (ElasticsearchInterface.add_students_to_class ste cid [sid]).1.success = true ∧
      activeEnrollCount
          (ElasticsearchInterface.add_students_to_class ste cid [sid]).2.class_enrollments sid cid
        = activeEnrollCount ste.class_enrollments sid cid + 1) ∧
    (stp.class_enrollments.any
        (fun r => r.student_id = sid ∧ r.class_id = cid) = true →
      (PostgreSQLInterface.add_students_to_class stp cid [sid]).1.successful = 0 ∧
      (PostgreSQLInterface.add_students_to_class stp cid [sid]).1.failed = 1 ∧
      (PostgreSQLInterface.add_students_to_class stp cid [sid]).1.success = false ∧
      (PostgreSQLInterface.add_students_to_class stp cid [sid]).2.class_enrollments
        = stp.class_enrollments) :=
  ⟨mongo_enroll_appends stm cid sid, es_enroll_appends ste cid sid,
   pg_enroll_duplicate stp cid sid⟩

/-- Empty search-index state with the clock at 5. -/
def es0 : ESState := { now := 5 }

/-- Relational state in which "s1" is already enrolled in "c1". -/
def pgDup : PGState :=
  { students := ["s1"], classes := ["c1"],
    class_enrollments :=
      [{ id := "e1", student_id := "s1", class_id := "c1",
         enrollment_date := 1, is_active := true }],
    now := 5 }

/-- Witness for the amended C6 at concrete states. -/
theorem C6_amended_witness :
    activeEnrollCount
        (MongoDBInterface.add_students_to_class st0 "c1" ["s1"]).2.class_enrollments "s1" "c1"
      = activeEnrollCount st0.class_enrollments "s1" "c1" + 1 ∧
    ((ElasticsearchInterface.add_students_to_class es0 "c1" ["s1"]).1.success = true ∧
      activeEnrollCount
          (ElasticsearchInterface.add_students_to_class es0 "c1" ["s1"]).2.class_enrollments "s1" "c1"
        = activeEnrollCount es0.class_enrollments "s1" "c1" + 1) ∧
    ((PostgreSQLInterface.add_students_to_class pgDup "c1" ["s1"]).1.successful = 0 ∧
     (PostgreSQLInterface.add_students_to_class pgDup "c1" ["s1"]).1.failed = 1 ∧
     (PostgreSQLInterface.add_students_to_class pgDup "c1" ["s1"]).1.success = false ∧
     (PostgreSQLInterface.add_students_to_class pgDup "c1" ["s1"]).2.class_enrollments
       = pgDup.class_enrollments) :=
  ⟨(C6_amended st0 es0 pgDup "c1" "s1").1 (by decide),
   (C6_amended st0 es0 pgDup "c1" "s1").2.1 (by decide),
   (C6_amended st0 es0 pgDup "c1" "s1").2.2 (by decide)⟩

/-! ## C8: search-index update / delete semantics versus the
document-store adapter. -/

/-- C8 counterexample: on the empty search index, `update_person` for
the absent id "x" returns a success envelope (`client.index` upserts),
while the document-store adapter reports not-found for the same
input — so the update semantics do NOT mirror the document-store
adapter. -/
theorem C8_counterexample :
    (ElasticsearchInterface.update_person es0 "x" p0).1.success = true ∧
    (MongoDBInterface.update_person st0 "x" p0).1 =
      { success := false, message := "Person not found" } := by decide

theorem es_update_missing_person (st : ESState) (i : String) (p : Person)
    (h : hasKey st.persons i = false) :
    (ElasticsearchInterface.update_person st i p).1.success = true ∧
    ∃ d, d.id = some i ∧
      ElasticsearchInterface.get_person (ElasticsearchInterface.update_person st i p).2 i =
        { success := true, message := "Person found", data := some (.person d) } := by
  refine ⟨rfl, ?_⟩
  set doc : Person := { p with id := some i, updated_at := st.now } with hdoc
  refine ⟨doc, rfl, ?_⟩
  have hup : (ElasticsearchInterface.update_person st i p).2.persons
      = es_index st.persons i doc := rfl
  have hidx : es_index st.persons i doc = st.persons ++ [(i, doc)] := by
    simp [es_index, h]
  simp only [ElasticsearchInterface.get_person, hup, hidx, find_one_append_self h]

theorem es_update_missing_student (st : ESState) (i : String) (s : Student)
    (h : hasKey st.students i = false) :
    (ElasticsearchInterface.update_student st i s).1.success = true ∧
    ∃ d, d.id = some i ∧
      ElasticsearchInterface.get_student (ElasticsearchInterface.update_student st i s).2 i =
        { success := true, message := "Student found", data := some (.student d) } := by
  refine ⟨rfl, ?_⟩
  set doc : Student := { s with id := some i, updated_at := st.now } with hdoc
  refine ⟨doc, rfl, ?_⟩
  have hup : (ElasticsearchInterface.update_student st i s).2.students
      = es_index st.students i doc := rfl
  have hidx : es_index st.students i doc = st.students ++ [(i, doc)] := by
    simp [es_index, h]
  simp only [ElasticsearchInterface.get_student, hup, hidx, find_one_append_self h]

theorem es_delete_missing_person (st : ESState) (i : String)
    (h : hasKey st.persons i = false) :
    ElasticsearchInterface.delete_person st i =
      ({ success := false, message := "Failed to delete person: " ++ esNotFound,
         errors := some [esNotFound] }, st) := by
  simp [ElasticsearchInterface.delete_person, es_delete, h, esNotFound]

theorem es_delete_missing_student (st : ESState) (i : String)
    (h : hasKey st.students i = false) :
    ElasticsearchInterface.delete_student st i =
      ({ success := false, message := "Failed to delete student: " ++ esNotFound,
         errors := some [esNotFound] }, st) := by
  simp [ElasticsearchInterface.delete_student, es_delete, h, esNotFound]

theorem es_delete_missing_teacher (st : ESState) (i : String)
    (h : hasKey st.teachers i = false) :
    ElasticsearchInterface.delete_teacher st i =
      ({ success := false, message := "Failed to delete teacher: " ++ esNotFound,
         errors := some [esNotFound] }, st) := by
  simp [ElasticsearchInterface.delete_teacher, es_delete, h, esNotFound]

theorem es_delete_missing_class (st : ESState) (i : String)
    (h : hasKey st.classes i = false) :
    ElasticsearchInterface.delete_class st i =
      ({ success := false, message := "Failed to delete class: " ++ esNotFound,
         errors := some [esNotFound] }, st) := by
  simp [ElasticsearchInterface.delete_class, es_delete, h, esNotFound]

/-- C8 as amended.  Only the delete semantics mirror the
document-store adapter: for every entity kind, delete on an absent id
yields a failure envelope carrying the not-found error and leaves the
index unchanged.  Update does not mirror it: on an absent id the
search-index adapter upserts — it reports success and a subsequent get
finds the freshly indexed document (shown for persons and students;
teachers and classes use the identical `client.index` call). -/
theorem C8_amended (st : ESState) (i : String) (p : Person) (s : Student) :
    (hasKey st.persons i = false →
      ElasticsearchInterface.delete_person st i =
        ({ success := false, message := "Failed to delete person: " ++ esNotFound,
           errors := some [esNotFound] }, st)) ∧
    (hasKey st.students i = false →
      ElasticsearchInterface.delete_student st i =
        ({ success := false, message := "Failed to delete student: " ++ esNotFound,
           errors := some [esNotFound] }, st)) ∧
    (hasKey st.teachers i = false →
      ElasticsearchInterface.delete_teacher st i =
        ({ success := false, message := "Failed to delete teacher: " ++ esNotFound,
           errors := some [esNotFound] }, st)) ∧
    (hasKey st.classes i = false →
      ElasticsearchInterface.delete_class st i =
        ({ success := false, message := "Failed to delete class: " ++ esNotFound,
           errors := some [esNotFound] }, st)) ∧
    (hasKey st.persons i = false →
      (ElasticsearchInterface.update_person st i p).1.success = true ∧
      ∃ d, d.id = some i ∧
        ElasticsearchInterface.get_person (ElasticsearchInterface.update_person st i p).2 i =
          { success := true, message := "Person found", data := some (.person d) }) ∧
    (hasKey st.students i = false →
      (ElasticsearchInterface.update_student st i s).1.success = true ∧
      ∃ d, d.id = some i ∧
        ElasticsearchInterface.get_student (ElasticsearchInterface.update_student st i s).2 i =
          { success := true, message := "Student found", data := some (.student d) }) :=
  ⟨es_delete_missing_person st i, es_delete_missing_student st i,
   es_delete_missing_teacher st i, es_delete_missing_class st i,
   es_update_missing_person st i p, es_update_missing_student st i s⟩

/-- Witness for the amended C8 on the empty index. -/
theorem C8_amended_witness :
    ElasticsearchInterface.delete_person es0 "x" =
      ({ success := false, message := "Failed to delete person: " ++ esNotFound,
         errors := some [esNotFound] }, es0) ∧
    ElasticsearchInterface.delete_student es0 "x" =
      ({ success := false, message := "Failed to delete student: " ++ esNotFound,
         errors := some [esNotFound] }, es0) ∧
    ((ElasticsearchInterface.update_person es0 "x" p0).1.success = true ∧
      ∃ d, d.id = some "x" ∧
        ElasticsearchInterface.get_person (ElasticsearchInterface.update_person es0 "x" p0).2 "x" =
          { success := true, message := "Person found", data := some (.person d) }) ∧
    ((ElasticsearchInterface.update_student es0 "x" s0).1.success = true ∧
      ∃ d, d.id = some "x" ∧
        ElasticsearchInterface.get_student (ElasticsearchInterface.update_student es0 "x" s0).2 "x" =
          { success := true, message := "Student found", data := some (.student d) }) :=
  ⟨(C8_amended es0 "x" p0 s0).1 (by decide),
   (C8_amended es0 "x" p0 s0).2.1 (by decide),
   (C8_amended es0 "x" p0 s0).2.2.2.2.1 (by decide),
   (C8_amended es0 "x" p0 s0).2.2.2.2.2 (by decide)⟩

/-! ## Bulk operations over raw item dicts

`bulk_operation` receives `BulkOperation.data : List[Dict]` and works
on the collection named `entity_type + "s"`.  The state below is that
one target collection (keyed by `_id`, which may be any value the
caller put into `item['id']`), plus the uuid supply and the clock. -/

/-- State of a bulk operation's target collection. -/
structure BulkState where
  coll : Coll Val Item := []
  gen : Nat := 0
  now : Nat := 0
deriving DecidableEq, Repr

/-- One iteration of the `create` loop of
`MongoDBInterface.bulk_operation`: generate a missing/falsy id, copy
it into `_id`, stamp the timestamps, `insert_one`; the per-item
`except` turns a driver error into an error string. -/
def mongoBulkCreateItem (st : BulkState) (item : Item) : BulkState × Option String :=
  let (item1, gen') :=
    if optTruthy (itemGet item "id") then (item, st.gen)
    else (itemSet item "id" (.str (genId st.gen)), st.gen + 1)
  let idv := (itemGet item1 "id").getD .null
  let item2 := itemSet item1 "_id" idv
  let item3 := itemSet (itemSet item2 "created_at" (.num st.now)) "updated_at" (.num st.now)
  match insert_one st.coll idv item3 with
  | .ok c => ({ st with coll := c, gen := gen' }, none)
  | .error e => ({ st with gen := gen' }, some e)

/-- One iteration of the `update` loop: a falsy/missing id is a
per-item failure; otherwise `replace_one` by `_id`, reporting
not-found when zero documents matched. -/
def mongoBulkUpdateItem (st : BulkState) (item : Item) : BulkState × Option String :=
  let item_id := itemGet item "id"
  if optTruthy item_id then
    let idv := item_id.getD .null
    let item1 := itemSet item "updated_at" (.num st.now)
    let (matched, c) := replace_one st.coll idv item1
    if matched ≠ 0 then ({ st with coll := c }, none)
    else (st, some ("Item with id " ++ idv.show ++ " not found"))
  else (st, some "Item ID is required for update operation")

/-- One iteration of the `delete` loop. -/
def mongoBulkDeleteItem (st : BulkState) (item : Item) : BulkState × Option String :=
  let item_id := itemGet item "id"
  if optTruthy item_id then
    let idv := item_id.getD .null
    let (deleted, c) := delete_one st.coll idv
    if deleted ≠ 0 then ({ st with coll := c }, none)
    else (st, some ("Item with id " ++ idv.show ++ " not found"))
  else (st, some "Item ID is required for delete operation")

/-- The per-item loop: each item runs in its own `try/except`, so a
failing item records one error string and processing continues with
the remaining items.  Accumulates `(successful, failed, errors)`. -/
def runItems (step : BulkState → Item → BulkState × Option String) :
    BulkState → List Item → BulkState × Nat × Nat × List String
  | st, [] => (st, 0, 0, [])
  | st, item :: rest =>
    match step st item with
    | (st1, none) =>
      let (st', s, f, es) := runItems step st1 rest
      (st', s + 1, f, es)
    | (st1, some e) =>
      let (st', s, f, es) := runItems step st1 rest
      (st', s, f + 1, e :: es)

namespace MongoDBInterface

/-- `MongoDBInterface.bulk_operation`: dispatches on
`operation_type`; an unrecognized type runs no loop at all.
`batch_size` is never read. -/
def bulk_operation (st : BulkState) (op : BulkOperation) :
    BulkOperationResponse × BulkState :=
  let (st', s, f, es) :=
    if op.operation_type = "create" then runItems mongoBulkCreateItem st op.data
    else if op.operation_type = "update" then runItems mongoBulkUpdateItem st op.data
    else if op.operation_type = "delete" then runItems mongoBulkDeleteItem st op.data
    else (st, 0, 0, [])
  ({ success := decide (f = 0),
     message := "Bulk " ++ op.operation_type ++ " operation completed",
     total_processed := op.data.length, successful := s, failed := f,
     errors := if es = [] then none else some es }, st')

end MongoDBInterface

/-- One iteration of the loop of `PostgreSQLInterface.bulk_operation`:
the code draws an id for a `create` item and stamps timestamps on the
local dict, but executes no SQL statement at all — it just counts the
item successful for the three recognized operation types (and counts
nothing for an unrecognized one).  Returns the new state and the
increment of `successful`. -/
def pgBulkStep (opType : String) (st : BulkState) (item : Item) : BulkState × Nat :=
  if opType = "create" then
    (if optTruthy (itemGet item "id") then st else { st with gen := st.gen + 1 }, 1)
  else if opType = "update" then (st, 1)
  else if opType = "delete" then (st, 1)
  else (st, 0)

/-- The per-item loop of the relational bulk operation. -/
def pgRun (opType : String) : BulkState → List Item → BulkState × Nat
  | st, [] => (st, 0)
  | st, item :: rest =>
    let (st1, inc) := pgBulkStep opType st item
    let (st', s) := pgRun opType st1 rest
    (st', s + inc)

namespace PostgreSQLInterface

/-- `PostgreSQLInterface.bulk_operation`: iterates per item inside one
acquired connection; since no statement is executed nothing can fail,
so `failed` is always 0 and the envelope always reports success. -/
def bulk_operation (st : BulkState) (op : BulkOperation) :
    BulkOperationResponse × BulkState :=
  let (st', s) := pgRun op.operation_type st op.data
  ({ success := true,
     message := "Bulk " ++ op.operation_type ++ " operation completed",
     total_processed := op.data.length, successful := s, failed := 0,
     errors := none }, st')

end PostgreSQLInterface

/-- A single action submitted to `async_bulk`. -/
inductive ESAction where
  | index (id : Val) (doc : Item)
  | del (id : Val)
deriving DecidableEq, Repr

/-- The lookup `self.indices.get(entity_type + "s")`: it succeeds
exactly when `entity_type + "s"` is one of the index keys.  Note that
`entity_type = "class"` yields the lookup of "classs", which is not a
key, so "class" takes the unknown-entity error path (only "classe"
would reach "classes"). -/
def esKnownEntity (e : String) : Bool :=
  (e ++ "s") ∈ ["persons", "students", "teachers", "classes",
                "class_enrollments", "teacher_assignments", "scores"]

/-- The action-building loop of
`ElasticsearchInterface.bulk_operation`.  For `update` and `delete`
the code indexes `item['id']` directly, so a missing key raises a
`KeyError` that aborts the whole call; for an unrecognized operation
type no action is appended.  Returns the actions and the advanced uuid
supply. -/
def esBuildActions (opType : String) (now : Nat) :
    List Item → Nat → Except String (List ESAction × Nat)
  | [], gen => .ok ([], gen)
  | item :: rest, gen =>
    if opType = "create" then
      let (item1, gen1) :=
        if optTruthy (itemGet item "id") then (item, gen)
        else (itemSet item "id" (.str (genId gen)), gen + 1)
      let item2 := itemSet (itemSet item1 "created_at" (.num now)) "updated_at" (.num now)
      let idv := (itemGet item1 "id").getD .null
      match esBuildActions opType now rest gen1 with
      | .ok (as, gen') => .ok (.index idv item2 :: as, gen')
      | .error e => .error e
    else if opType = "update" then
      match itemGet item "id" with
      | none => .error "KeyError: id"
      | some idv =>
        let item1 := itemSet item "updated_at" (.num now)
        match esBuildActions opType now rest gen with
        | .ok (as, gen') => .ok (.index idv item1 :: as, gen')
        | .error e => .error e
    else if opType = "delete" then
      match itemGet item "id" with
      | none => .error "KeyError: id"
      | some idv =>
        match esBuildActions opType now rest gen with
        | .ok (as, gen') => .ok (.del idv :: as, gen')
        | .error e => .error e
    else
      esBuildActions opType now rest gen

/-- Application of the submitted actions by the bulk endpoint: index
actions are upserts and always succeed; a delete of an absent id is a
failed item.  Returns the new index, the success count and the failed
items. -/
def esApplyActions : Coll Val Item → List ESAction → Coll Val Item × Nat × List String
  | c, [] => (c, 0, [])
  | c, .index i doc :: rest =>
    let (c', n, fs) := esApplyActions (es_index c i doc) rest
    (c', n + 1, fs)
  | c, .del i :: rest =>
    match es_delete c i with
    | .ok c1 =>
      let (c', n, fs) := esApplyActions c1 rest
      (c', n + 1, fs)
    | .error e =>
      let (c', n, fs) := esApplyActions c rest
      (c', n, e :: fs)

/-- State of the search-index bulk operation's target index. -/
structure ESBulkState where
  index : Coll Val Item := []
  gen : Nat := 0
  now : Nat := 0
deriving DecidableEq, Repr

namespace ElasticsearchInterface

/-- `ElasticsearchInterface.bulk_operation`: rejects an unknown entity
type up front, builds the batched actions, submits them through
`async_bulk` (which raises `BulkIndexError` when any item failed,
caught by the outer `except`). -/
def bulk_operation (st : ESBulkState) (op : BulkOperation) :
    BulkOperationResponse × ESBulkState :=
  if esKnownEntity op.entity_type = false then
    ({ success := false, message := "Unknown entity type: " ++ op.entity_type,
       total_processed := op.data.length, successful := 0, failed := op.data.length,
       errors := some ["Unknown entity type: " ++ op.entity_type] }, st)
  else
    match esBuildActions op.operation_type st.now op.data st.gen with
    | .error e =>
      ({ success := false, message := "Bulk operation failed: " ++ e,
         total_processed := op.data.length, successful := 0, failed := op.data.length,
         errors := some [e] }, st)
    | .ok (as, gen') =>
      let (c', n, fs) := esApplyActions st.index as
      if fs = [] then
        ({ success := true,
           message := "Bulk " ++ op.operation_type ++ " operation completed",
           total_processed := op.data.length, successful := n, failed := 0 },
         { st with index := c', gen := gen' })
      else
        ({ success := false, message := "Bulk operation failed: BulkIndexError",
           total_processed := op.data.length, successful := 0, failed := op.data.length,
           errors := some ["BulkIndexError"] },
         { st with index := c', gen := gen' })

end ElasticsearchInterface

theorem runItems_counts (step : BulkState → Item → BulkState × Option String)
    (st : BulkState) (items : List Item) :
    (runItems step st items).2.1 + (runItems step st items).2.2.1 = items.length ∧
    (runItems step st items).2.2.2.length = (runItems step st items).2.2.1 := by
  induction items generalizing st with
  | nil => simp [runItems]
  | cons item rest ih =>
    rcases hstep : step st item with ⟨st1, oe⟩
    cases oe with
    | none =>
      have h := ih st1
      rcases hrun : runItems step st1 rest with ⟨st', s, f, es⟩
      rw [hrun] at h
      simp only [runItems, hstep, hrun]
      simp only [List.length_cons] at h ⊢
      omega
    | some e =>
      have h := ih st1
      rcases hrun : runItems step st1 rest with ⟨st', s, f, es⟩
      rw [hrun] at h
      simp only [runItems, hstep, hrun]
      simp only [List.length_cons] at h ⊢
      omega

theorem errsLen (es : List String) (f : Nat) (h : es.length = f) :
    ((if es = [] then (none : Option (List String)) else some es).getD []).length = f := by
  by_cases he : es = [] <;> simp [he] at h ⊢ <;> omega

/-- C4.  For every bulk operation over a list of item dicts: the
response reports `total_processed` equal to the list length; for the
recognized operation types every item is attempted and
`successful + failed` equals the list length (each item runs in its
own try/catch, so a failing item only adds its error string to
`errors` — one entry per failure — without aborting the rest);
`success` is true exactly when `failed` is zero; and the result is
independent of `batch_size`, which the code never reads. -/
theorem C4_bulk_contract (st : BulkState) (op : BulkOperation) (b : Nat) :
    (MongoDBInterface.bulk_operation st op).1.total_processed = op.data.length ∧
    ((op.operation_type = "create" ∨ op.operation_type = "update" ∨
        op.operation_type = "delete") →
      (MongoDBInterface.bulk_operation st op).1.successful +
        (MongoDBInterface.bulk_operation st op).1.failed = op.data.length) ∧
    ((MongoDBInterface.bulk_operation st op).1.errors.getD []).length =
      (MongoDBInterface.bulk_operation st op).1.failed ∧
    (MongoDBInterface.bulk_operation st op).1.success =
      decide ((MongoDBInterface.bulk_operation st op).1.failed = 0) ∧
    MongoDBInterface.bulk_operation st { op with batch_size := b } =
      MongoDBInterface.bulk_operation st op := by
  refine ⟨rfl, ?_, ?_, rfl, rfl⟩
  · intro htype
    rcases htype with h | h | h
    · rcases hrun : runItems mongoBulkCreateItem st op.data with ⟨st', s, f, es⟩
      have hcnt := runItems_counts mongoBulkCreateItem st op.data
      rw [hrun] at hcnt
      simp at hcnt
      simp [MongoDBInterface.bulk_operation, h, hrun]
      omega
    · rcases hrun : runItems mongoBulkUpdateItem st op.data with ⟨st', s, f, es⟩
      have hcnt := runItems_counts mongoBulkUpdateItem st op.data
      rw [hrun] at hcnt
      simp at hcnt
      simp [MongoDBInterface.bulk_operation, h, hrun]
      omega
    · rcases hrun : runItems mongoBulkDeleteItem st op.data with ⟨st', s, f, es⟩
      have hcnt := runItems_counts mongoBulkDeleteItem st op.data
      rw [hrun] at hcnt
      simp at hcnt
      simp [MongoDBInterface.bulk_operation, h, hrun]
      omega
  · by_cases h1 : op.operation_type = "create"
    · rcases hrun : runItems mongoBulkCreateItem st op.data with ⟨st', s, f, es⟩
      have hcnt := runItems_counts mongoBulkCreateItem st op.data
      rw [hrun] at hcnt
      simp at hcnt
      simp only [MongoDBInterface.bulk_operation, h1, hrun]
      simpa using errsLen es f hcnt.2
    · by_cases h2 : op.operation_type = "update"
      · rcases hrun : runItems mongoBulkUpdateItem st op.data with ⟨st', s, f, es⟩
        have hcnt := runItems_counts mongoBulkUpdateItem st op.data
        rw [hrun] at hcnt
        simp at hcnt
        simp only [MongoDBInterface.bulk_operation, h1, h2, if_neg h1, hrun]
        simpa using errsLen es f hcnt.2
      · by_cases h3 : op.operation_type = "delete"
        · rcases hrun : runItems mongoBulkDeleteItem st op.data with ⟨st', s, f, es⟩
          have hcnt := runItems_counts mongoBulkDeleteItem st op.data
          rw [hrun] at hcnt
          simp at hcnt
          simp only [MongoDBInterface.bulk_operation, h1, h2, h3, if_neg h1,
            if_neg h2, hrun]
          simpa using errsLen es f hcnt.2
        · simp [MongoDBInterface.bulk_operation, h1, h2, h3]

/-- One-item target collection state for bulk witnesses. -/
def stb0 : BulkState := { now := 5 }

/-- Bulk create of three items, one of which (the explicit id "a"
repeated) fails with a duplicate-key error. -/
def opMix : BulkOperation :=
  { operation_type := "create", entity_type := "student",
    data := [[("id", Val.str "a"), ("email", Val.str "x@y.z")],
             [("id", Val.str "a"), ("email", Val.str "q@y.z")],
             [("email", Val.str "w@y.z")]],
    batch_size := 2 }

/-- Witness for C4: three items with one duplicate-key failure in the
middle — the failing item records its error and the remaining item is
still processed (`successful = 2`, `failed = 1`), `total_processed`
is 3, `success` is false, and `batch_size` is irrelevant. -/
theorem C4_witness :
    (MongoDBInterface.bulk_operation stb0 opMix).1.total_processed = opMix.data.length ∧
    (MongoDBInterface.bulk_operation stb0 opMix).1.successful +
      (MongoDBInterface.bulk_operation stb0 opMix).1.failed = opMix.data.length ∧
    ((MongoDBInterface.bulk_operation stb0 opMix).1.errors.getD []).length =
      (MongoDBInterface.bulk_operation stb0 opMix).1.failed ∧
    (MongoDBInterface.bulk_operation stb0 opMix).1.success =
      decide ((MongoDBInterface.bulk_operation stb0 opMix).1.failed = 0) ∧
    MongoDBInterface.bulk_operation stb0 { opMix with batch_size := 999 } =
      MongoDBInterface.bulk_operation stb0 opMix ∧
    (MongoDBInterface.bulk_operation stb0 opMix).1.successful = 2 ∧
    (MongoDBInterface.bulk_operation stb0 opMix).1.failed = 1 :=
  ⟨(C4_bulk_contract stb0 opMix 999).1,
   (C4_bulk_contract stb0 opMix 999).2.1 (Or.inl rfl),
   (C4_bulk_contract stb0 opMix 999).2.2.1,
   (C4_bulk_contract stb0 opMix 999).2.2.2.1,
   (C4_bulk_contract stb0 opMix 999).2.2.2.2,
   by decide, by decide⟩

theorem esBuildActions_unknown (opType : String) (now : Nat) (items : List Item)
    (gen : Nat) (h1 : opType ≠ "create") (h2 : opType ≠ "update")
    (h3 : opType ≠ "delete") :
    esBuildActions opType now items gen = .ok ([], gen) := by
  induction items with
  | nil => rfl
  | cons item rest ih => simp [esBuildActions, h1, h2, h3, ih]

/-- C10.  For a `BulkOperation` whose `operation_type` is none of
`create` / `update` / `delete`: the document-store adapter runs no
loop, mutates nothing and returns `success = true` with
`successful = failed = 0` and `total_processed` equal to the number of
items; the search-index adapter builds an empty action list (submits
no actions) and likewise returns the all-zero success envelope with
its state unchanged (given a known entity type, which is checked
first). -/
theorem C10_unknown_bulk_noop (st : BulkState) (ste : ESBulkState)
    (op : BulkOperation) (h1 : op.operation_type ≠ "create")
    (h2 : op.operation_type ≠ "update") (h3 : op.operation_type ≠ "delete") :
    MongoDBInterface.bulk_operation st op =
      ({ success := true,
         message := "Bulk " ++ op.operation_type ++ " operation completed",
         total_processed := op.data.length, successful := 0, failed := 0 }, st) ∧
    esBuildActions op.operation_type ste.now op.data ste.gen = .ok ([], ste.gen) ∧
    (esKnownEntity op.entity_type = true →
      ElasticsearchInterface.bulk_operation ste op =
        ({ success := true,
           message := "Bulk " ++ op.operation_type ++ " operation completed",
           total_processed := op.data.length, successful := 0, failed := 0 }, ste)) := by
  refine ⟨?_, esBuildActions_unknown _ _ _ _ h1 h2 h3, ?_⟩
  · simp [MongoDBInterface.bulk_operation, h1, h2, h3]
  · intro hknown
    simp [ElasticsearchInterface.bulk_operation, hknown,
      esBuildActions_unknown op.operation_type ste.now op.data ste.gen h1 h2 h3,
      esApplyActions]

/-- Empty search-index bulk state. -/
def esb0 : ESBulkState := { now := 5 }

/-- A bulk request with the unrecognized operation type "upsert". -/
def opUpsert : BulkOperation :=
  { operation_type := "upsert", entity_type := "student",
    data := [[("id", Val.str "x")], [("id", Val.str "y")]] }

/-- Witness for C10 with operation type "upsert" over two items. -/
theorem C10_witness :
    MongoDBInterface.bulk_operation stb0 opUpsert =
      ({ success := true, message := "Bulk upsert operation completed",
         total_processed := 2, successful := 0, failed := 0 }, stb0) ∧
    esBuildActions opUpsert.operation_type esb0.now opUpsert.data esb0.gen =
      .ok ([], esb0.gen) ∧
    ElasticsearchInterface.bulk_operation esb0 opUpsert =
      ({ success := true, message := "Bulk upsert operation completed",
         total_processed := 2, successful := 0, failed := 0 }, esb0) :=
  ⟨(C10_unknown_bulk_noop stb0 esb0 opUpsert (by decide) (by decide) (by decide)).1,
   (C10_unknown_bulk_noop stb0 esb0 opUpsert (by decide) (by decide) (by decide)).2.1,
   (C10_unknown_bulk_noop stb0 esb0 opUpsert (by decide) (by decide) (by decide)).2.2
     (by decide)⟩

/-- Bulk delete of the single id "x" (absent from the empty store). -/
def opDelX : BulkOperation :=
  { operation_type := "delete", entity_type := "student",
    data := [[("id", Val.str "x")]] }

/-- Bulk create of one student item. -/
def opCreA : BulkOperation :=
  { operation_type := "create", entity_type := "student",
    data := [[("email", Val.str "a@b.c")]] }

/-- C7.  The relational adapter's `bulk_operation` does NOT accumulate
the same counts nor produce the same store state as the document-store
adapter: on a bulk delete of an id absent from the empty store the
relational adapter reports the item successful (it executes no SQL)
while the document-store adapter reports it failed; and on a bulk
create the relational adapter leaves the store empty while the
document-store adapter inserts the document.  This contradicts the
repository's own bulk-operation tests, which run against all three
backends and expect bulk-created records to be retrievable. -/
theorem C7_divergence :
    (PostgreSQLInterface.bulk_operation stb0 opDelX).1.successful = 1 ∧
    (PostgreSQLInterface.bulk_operation stb0 opDelX).1.failed = 0 ∧
    (PostgreSQLInterface.bulk_operation stb0 opDelX).1.success = true ∧
    (MongoDBInterface.bulk_operation stb0 opDelX).1.successful = 0 ∧
    (MongoDBInterface.bulk_operation stb0 opDelX).1.failed = 1 ∧
    (MongoDBInterface.bulk_operation stb0 opDelX).1.success = false ∧
    (PostgreSQLInterface.bulk_operation stb0 opCreA).2.coll = [] ∧
    (MongoDBInterface.bulk_operation stb0 opCreA).2.coll.length = 1 := by decide

/-! ## Facade layer (`mcp_server.py`)

The server builds a pydantic entity from the caller's plain field
dictionary (`Student(**student_data)` — a construction that raises a
`ValidationError` on missing required fields or failed validators,
caught into a failure envelope) and dispatches to the adapter,
flattening the typed response. -/

/-- Python `str.lower` (written over the character list so that it
evaluates by kernel reduction). -/
def pyLower (s : String) : String := String.mk (s.data.map Char.toLower)

/-- Required string field of a pydantic model. -/
def getStrField (data : Item) (k : String) : Except String String :=
  match itemGet data k with
  | some (.prim (.str s)) => .ok s
  | _ => .error ("field required: " ++ k)

/-- Optional string field (absent or `None` gives `None`). -/
def getOptStr (data : Item) (k : String) : Except String (Option String) :=
  match itemGet data k with
  | none => .ok none
  | some (.prim .null) => .ok none
  | some (.prim (.str s)) => .ok (some s)
  | some _ => .error ("str type expected: " ++ k)

/-- Optional integer field. -/
def getOptNat (data : Item) (k : String) : Except String (Option Nat) :=
  match itemGet data k with
  | none => .ok none
  | some (.prim .null) => .ok none
  | some (.prim (.num n)) =>
    if n < 0 then .error ("invalid value: " ++ k) else .ok (some n.toNat)
  | some _ => .error ("int type expected: " ++ k)

/-- Integer field with a default (pydantic `default_factory`). -/
def getNatD (data : Item) (k : String) (dflt : Nat) : Except String Nat :=
  match itemGet data k with
  | none => .ok dflt
  | some (.prim (.num n)) =>
    if n < 0 then .error ("invalid value: " ++ k) else .ok n.toNat
  | some _ => .error ("datetime type expected: " ++ k)

/-- Boolean field with a default. -/
def getBoolD (data : Item) (k : String) (dflt : Bool) : Except String Bool :=
  match itemGet data k with
  | none => .ok dflt
  | some (.prim (.bool b)) => .ok b
  | some _ => .error ("bool type expected: " ++ k)

/-- The pydantic email validator: must contain "@", stored
lower-cased. -/
def validateEmail (s : String) : Except String String :=
  if s.data.contains '@' then .ok (pyLower s) else .error "Invalid email format"

/-- `Person(**data)`: pydantic construction of a `Person` from a plain
field dictionary (`now` feeds the timestamp default factories). -/
def mkPerson (now : Nat) (data : Item) : Except String Person := do
  let id_ ← getOptStr data "id"
  let first_name ← getStrField data "first_name"
  let last_name ← getStrField data "last_name"
  let email0 ← getStrField data "email"
  let email ← validateEmail email0
  let phone ← getOptStr data "phone"
  let date_of_birth ← getOptNat data "date_of_birth"
  let address ← getOptStr data "address"
  let created_at ← getNatD data "created_at" now
  let updated_at ← getNatD data "updated_at" now
  .ok { id := id_, first_name := first_name, last_name := last_name,
        email := email, phone := phone, date_of_birth := date_of_birth,
        address := address, created_at := created_at, updated_at := updated_at }

/-- `Student(**data)`. -/
def mkStudent (now : Nat) (data : Item) : Except String Student := do
  let id_ ← getOptStr data "id"
  let first_name ← getStrField data "first_name"
  let last_name ← getStrField data "last_name"
  let email0 ← getStrField data "email"
  let email ← validateEmail email0
  let phone ← getOptStr data "phone"
  let date_of_birth ← getOptNat data "date_of_birth"
  let address ← getOptStr data "address"
  let created_at ← getNatD data "created_at" now
  let updated_at ← getNatD data "updated_at" now
  let student_id ← getOptStr data "student_id"
  let grade0 ← getOptNat data "grade_level"
  let grade_level ← match grade0 with
    | none => Except.ok none
    | some g =>
      if 1 ≤ g ∧ g ≤ 12 then Except.ok (some g)
      else Except.error "grade_level out of range"
  let enrollment_date ← getNatD data "enrollment_date" now
  let is_active ← getBoolD data "is_active" true
  let guardian_contact ← getOptStr data "guardian_contact"
  .ok { id := id_, first_name := first_name, last_name := last_name,
        email := email, phone := phone, date_of_birth := date_of_birth,
        address := address, created_at := created_at, updated_at := updated_at,
        student_id := student_id, grade_level := grade_level,
        enrollment_date := enrollment_date, is_active := is_active,
        guardian_contact := guardian_contact }

/-- The plain dictionary-shaped result the facade returns. -/
structure ServerResponse where
  success : Bool
  message : String
  data : Option PersonData := none
  errors : Option (List String) := none
deriving DecidableEq, Repr

namespace DataSourceMCPServer

/-- `DataSourceMCPServer.create_person` over the document-store
backend: builds the `Person`, dispatches, flattens; a construction
error is caught into a failure envelope with the exception text. -/
def create_person (st : MongoState) (person_data : Item) : ServerResponse × MongoState :=
  match mkPerson st.now person_data with
  | .error e =>
    ({ success := false, message := "Failed to create person: " ++ e,
       errors := some [e] }, st)
  | .ok p =>
    let (resp, st') := MongoDBInterface.create_person st p
    ({ success := resp.success, message := resp.message, data := resp.data,
       errors := resp.errors }, st')

/-- `DataSourceMCPServer.update_student` over the document-store
backend (the client's `update_student(student_id, **kwargs)` passes
the keyword dictionary straight through). -/
def update_student (st : MongoState) (student_id : String) (student_data : Item) :
    ServerResponse × MongoState :=
  match mkStudent st.now student_data with
  | .error e =>
    ({ success := false, message := "Failed to update student: " ++ e,
       errors := some [e] }, st)
  | .ok s =>
    let (resp, st') := MongoDBInterface.update_student st student_id s
    ({ success := resp.success, message := resp.message, data := resp.data,
       errors := resp.errors }, st')

end DataSourceMCPServer

instance {ε α : Type} [DecidableEq ε] [DecidableEq α] : DecidableEq (Except ε α) :=
  fun x y =>
  match x, y with
  | .ok a, .ok b =>
    if h : a = b then isTrue (by rw [h])
    else isFalse (by intro hc; cases hc; exact h rfl)
  | .error a, .error b =>
    if h : a = b then isTrue (by rw [h])
    else isFalse (by intro hc; cases hc; exact h rfl)
  | .ok _, .error _ => isFalse (by intro hc; cases hc)
  | .error _, .ok _ => isFalse (by intro hc; cases hc)

theorem find_one_map_replace {κ : Type} [DecidableEq κ] {α : Type}
    {c : Coll κ α} {k : κ} {v : α} (h : hasKey c k = true) :
    find_one (c.map (fun p => if p.1 = k then (k, v) else p)) k = some v := by
  induction c with
  | nil => simp [hasKey] at h
  | cons p c ih =>
    by_cases hp : p.1 = k
    · simp [find_one, List.find?, hp]
    · have h' : hasKey c k = true := by
        have h2 : (decide (p.1 = k) || List.any c (fun q => decide (q.1 = k))) = true := by
          rw [hasKey, List.any_cons] at h
          exact h
        have hd : decide (p.1 = k) = false := by simpa using hp
        rw [hd, Bool.false_or] at h2
        rw [hasKey]
        exact h2
      have := ih h'
      simpa [find_one, List.find?, hp] using this

theorem find_one_replace {κ : Type} [DecidableEq κ] {α : Type}
    {c : Coll κ α} {k : κ} {v : α} (h : hasKey c k = true) :
    find_one (replace_one c k v).2 k = some v := by
  rw [replace_one, if_pos h]
  exact find_one_map_replace h

/-- C5 as amended.  Update is a full-document replace, not a partial
patch: when the facade's pydantic construction of the submitted fields
fails (e.g. required fields omitted) the call returns a failure
envelope and changes nothing; when it succeeds and the id exists, the
stored record afterwards is exactly the constructed document (with its
id forced to the path id and `updated_at` restamped) — supplied fields
change and every omitted optional field reverts to its model default,
surviving only if re-supplied. -/
theorem C5_amended (st : MongoState) (i : String) (data : Item) :
    (∀ e, mkStudent st.now data = .error e →
      DataSourceMCPServer.update_student st i data =
        ({ success := false, message := "Failed to update student: " ++ e,
           errors := some [e] }, st)) ∧
    (∀ s, mkStudent st.now data = .ok s → hasKey st.students i = true →
      (DataSourceMCPServer.update_student st i data).1.success = true ∧
      find_one (DataSourceMCPServer.update_student st i data).2.students i =
        some { s with id := some i, updated_at := st.now }) := by
  constructor
  · intro e he
    simp [DataSourceMCPServer.update_student, he]
  · intro s hs hk
    have hrep := find_one_replace (c := st.students) (k := i)
      (v := { s with id := some i, updated_at := st.now }) hk
    constructor
    · simp [DataSourceMCPServer.update_student, hs,
        MongoDBInterface.update_student, replace_one, hk]
    · simp [DataSourceMCPServer.update_student, hs,
        MongoDBInterface.update_student, replace_one, hk] at hrep ⊢
      exact hrep

/-- Stored state holding student "s1" (whose phone is "555-0100"). -/
def st5 : MongoState := { students := [("s1", s0)], now := 9 }

/-- A partial update: first/last name, email and a new grade level,
with phone (among others) not supplied. -/
def updData : Item :=
  [("first_name", Val.str "Alan"), ("last_name", Val.str "Turing"),
   ("email", Val.str "alan@example.com"), ("grade_level", Val.num 5)]

/-- The facade update of "s1" with the partial field set. -/
def updPartial : ServerResponse × MongoState :=
  DataSourceMCPServer.update_student st5 "s1" updData

/-- C5 counterexample: the stored student's phone was "555-0100" and
phone was NOT among the supplied fields, yet after a successful update
the stored phone is `None` — the update changed a field the caller did
not supply, so "changes exactly the supplied fields and leaves every
other field untouched" fails. -/
theorem C5_counterexample :
    s0.phone = some "555-0100" ∧
    updPartial.1.success = true ∧
    (find_one updPartial.2.students "s1").map Student.phone = some none ∧
    (find_one updPartial.2.students "s1").map Student.grade_level = some (some 5) := by
  decide

/-- Witness for the amended C5: the same concrete update, plus a
failing construction (missing required fields) that leaves the state
unchanged. -/
theorem C5_amended_witness :
    (updPartial.1.success = true ∧
     find_one updPartial.2.students "s1" =
       some { (match mkStudent st5.now updData with
               | .ok s => s
               | .error _ => s0) with id := some "s1", updated_at := st5.now }) ∧
    DataSourceMCPServer.update_student st5 "s1" [("grade_level", Val.num 5)] =
      ({ success := false,
         message := "Failed to update student: field required: first_name",
         errors := some ["field required: first_name"] }, st5) := by
  constructor
  · have h := (C5_amended st5 "s1" updData).2
      (match mkStudent st5.now updData with
       | .ok s => s
       | .error _ => s0) (by decide) (by decide)
    exact h
  · exact (C5_amended st5 "s1" [("grade_level", Val.num 5)]).1
      "field required: first_name" (by decide)

/-! ## C2: the catch-and-wrap propagation policy

Every operation of the embedding is a total Lean function returning an
envelope — the shape of each `try/except` block in the source.  The
statements below cover every failure path expressible in the state
model: duplicate-key insert errors in the four creates and the two
relationship operations, the search-index 404 on delete, the batched
`async_bulk` loop error, and a facade-level pydantic
`ValidationError`. -/

/-- The duplicate-key exception text raised by the driver. -/
def dupErr : String := "E11000 duplicate key error"

theorem create_person_dup (st : MongoState) (p : Person)
    (hk : hasKey st.persons (resolveId st.gen p.id).1 = true) :
    (MongoDBInterface.create_person st p).1 =
      { success := false, message := "Failed to create person: " ++ dupErr,
        errors := some [dupErr] } := by
  set i := (resolveId st.gen p.id).1 with hi
  set doc := { p with id := some i, updated_at := st.now } with hdoc
  have hcp : MongoDBInterface.create_person st p =
      (match insert_one st.persons i doc with
       | .ok c =>
         ({ success := true, message := "Person created successfully",
            data := some (.person doc) },
          { st with persons := c, gen := (resolveId st.gen p.id).2 })
       | .error e =>
         ({ success := false, message := "Failed to create person: " ++ e,
            errors := some [e] },
          { st with gen := (resolveId st.gen p.id).2 })) := rfl
  rw [hcp]
  rw [insert_one, if_pos hk]
  simp [dupErr]

theorem create_student_dup (st : MongoState) (s : Student)
    (hk : hasKey st.students (resolveId st.gen s.id).1 = true) :
    (MongoDBInterface.create_student st s).1 =
      { success := false, message := "Failed to create student: " ++ dupErr,
        errors := some [dupErr] } := by
  set i := (resolveId st.gen s.id).1 with hi
  set doc := { s with id := some i, updated_at := st.now } with hdoc
  have hcp : MongoDBInterface.create_student st s =
      (match insert_one st.students i doc with
       | .ok c =>
         ({ success := true, message := "Student created successfully",
            data := some (.student doc) },
          { st with students := c, gen := (resolveId st.gen s.id).2 })
       | .error e =>
         ({ success := false, message := "Failed to create student: " ++ e,
            errors := some [e] },
          { st with gen := (resolveId st.gen s.id).2 })) := rfl
  rw [hcp]
  rw [insert_one, if_pos hk]
  simp [dupErr]

theorem create_teacher_dup (st : MongoState) (t : Teacher)
    (hk : hasKey st.teachers (resolveId st.gen t.id).1 = true) :
    (MongoDBInterface.create_teacher st t).1 =
      { success := false, message := "Failed to create teacher: " ++ dupErr,
        errors := some [dupErr] } := by
  set i := (resolveId st.gen t.id).1 with hi
  set doc := { t with id := some i, updated_at := st.now } with hdoc
  have hcp : MongoDBInterface.create_teacher st t =
      (match insert_one st.teachers i doc with
       | .ok c2 =>
         ({ success := true, message := "Teacher created successfully",
            data := some (.teacher doc) },
          { st with teachers := c2, gen := (resolveId st.gen t.id).2 })
       | .error e =>
         ({ success := false, message := "Failed to create teacher: " ++ e,
            errors := some [e] },
          { st with gen := (resolveId st.gen t.id).2 })) := rfl
  rw [hcp]
  rw [insert_one, if_pos hk]
  simp [dupErr]

theorem create_class_dup (st : MongoState) (c : Class)
    (hk : hasKey st.classes (resolveId st.gen c.id).1 = true) :
    (MongoDBInterface.create_class st c).1 =
      { success := false, message := "Failed to create class: " ++ dupErr,
        errors := some [dupErr] } := by
  set i := (resolveId st.gen c.id).1 with hi
  set doc := { c with id := some i, updated_at := st.now } with hdoc
  have hcp : MongoDBInterface.create_class st c =
      (match insert_one st.classes i doc with
       | .ok cs =>
         ({ success := true, message := "Class created successfully",
            data := some doc },
          { st with classes := cs, gen := (resolveId st.gen c.id).2 })
       | .error e =>
         ({ success := false, message := "Failed to create class: " ++ e,
            errors := some [e] },
          { st with gen := (resolveId st.gen c.id).2 })) := rfl
  rw [hcp]
  rw [insert_one, if_pos hk]
  simp [dupErr]

theorem add_students_fail (st : MongoState) (cid : String) (sids : List String)
    (e : String)
    (he : (insert_many st.class_enrollments
      (MongoDBInterface.buildEnrollments cid st.now sids st.gen).1).2.2 = some e) :
    (MongoDBInterface.add_students_to_class st cid sids).1 =
      { success := false, message := "Failed to add students to class: " ++ e,
        total_processed := sids.length, successful := 0, failed := sids.length,
        errors := some [e] } := by
  rcases hbe : MongoDBInterface.buildEnrollments cid st.now sids st.gen with ⟨docs, gen'⟩
  rw [hbe] at he
  rcases hins : insert_many st.class_enrollments docs with ⟨c, ins, err⟩
  rw [hins] at he
  simp at he
  subst he
  simp [MongoDBInterface.add_students_to_class, hbe, hins]

theorem add_teacher_fail (st : MongoState) (cid tid subj : String)
    (hk : hasKey st.teacher_assignments (genId st.gen) = true) :
    (MongoDBInterface.add_teacher_to_class st cid tid subj).1 =
      { success := false, message := "Failed to add teacher to class: " ++ dupErr,
        errors := some [dupErr] } := by
  simp [MongoDBInterface.add_teacher_to_class, insert_one, hk, dupErr]

theorem server_create_person_fail (st : MongoState) (data : Item) (e : String)
    (he : mkPerson st.now data = .error e) :
    DataSourceMCPServer.create_person st data =
      ({ success := false, message := "Failed to create person: " ++ e,
         errors := some [e] }, st) := by
  simp [DataSourceMCPServer.create_person, he]

theorem es_bulk_build_fail (ste : ESBulkState) (op : BulkOperation) (e : String)
    (hknown : esKnownEntity op.entity_type = true)
    (he : esBuildActions op.operation_type ste.now op.data ste.gen = .error e) :
    ElasticsearchInterface.bulk_operation ste op =
      ({ success := false, message := "Bulk operation failed: " ++ e,
         total_processed := op.data.length, successful := 0,
         failed := op.data.length, errors := some [e] }, ste) := by
  simp [ElasticsearchInterface.bulk_operation, hknown, he]

/-- C2.  Catch-and-wrap policy: on every failure path expressible in
the state model — duplicate-key errors in the four creates and the two
relationship operations of the document-store adapter, an
`insert_many` error in `add_students_to_class`, the search-index 404
on delete, a failed item inside the batched `async_bulk` submission,
and a pydantic `ValidationError` in the facade — the operation returns
a well-formed failure envelope (`success = false`, message carrying
the exception text, `errors` populated with it) instead of propagating
the exception; every modeled operation is a total envelope-returning
function, and only `connect`-time errors are outside this shape. -/
theorem C2_failure_envelopes (st : MongoState) (ste : ESState)
    (stb : ESBulkState) (op : BulkOperation) (data : Item)
    (p : Person) (s : Student) (t : Teacher) (c : Class)
    (cid tid subj i : String) (sids : List String) (e : String) :
    (hasKey st.persons (resolveId st.gen p.id).1 = true →
      (MongoDBInterface.create_person st p).1 =
        { success := false, message := "Failed to create person: " ++ dupErr,
          errors := some [dupErr] }) ∧
    (hasKey st.students (resolveId st.gen s.id).1 = true →
      (MongoDBInterface.create_student st s).1 =
        { success := false, message := "Failed to create student: " ++ dupErr,
          errors := some [dupErr] }) ∧
    (hasKey st.teachers (resolveId st.gen t.id).1 = true →
      (MongoDBInterface.create_teacher st t).1 =
        { success := false, message := "Failed to create teacher: " ++ dupErr,
          errors := some [dupErr] }) ∧
    (hasKey st.classes (resolveId st.gen c.id).1 = true →
      (MongoDBInterface.create_class st c).1 =
        { success := false, message := "Failed to create class: " ++ dupErr,
          errors := some [dupErr] }) ∧
    ((insert_many st.class_enrollments
        (MongoDBInterface.buildEnrollments cid st.now sids st.gen).1).2.2 = some e →
      (MongoDBInterface.add_students_to_class st cid sids).1 =
        { success := false, message := "Failed to add students to class: " ++ e,
          total_processed := sids.length, successful := 0, failed := sids.length,
          errors := some [e] }) ∧
    (hasKey st.teacher_assignments (genId st.gen) = true →
      (MongoDBInterface.add_teacher_to_class st cid tid subj).1 =
        { success := false, message := "Failed to add teacher to class: " ++ dupErr,
          errors := some [dupErr] }) ∧
    (hasKey ste.persons i = false →
      ElasticsearchInterface.delete_person ste i =
        ({ success := false, message := "Failed to delete person: " ++ esNotFound,
           errors := some [esNotFound] }, ste)) ∧
    (esKnownEntity op.entity_type = true →
      esBuildActions op.operation_type stb.now op.data stb.gen = .error e →
      ElasticsearchInterface.bulk_operation stb op =
        ({ success := false, message := "Bulk operation failed: " ++ e,
           total_processed := op.data.length, successful := 0,
           failed := op.data.length, errors := some [e] }, stb)) ∧
    (mkPerson st.now data = .error e →
      DataSourceMCPServer.create_person st data =
        ({ success := false, message := "Failed to create person: " ++ e,
           errors := some [e] }, st)) :=
  ⟨create_person_dup st p, create_student_dup st s, create_teacher_dup st t,
   create_class_dup st c, add_students_fail st cid sids e,
   add_teacher_fail st cid tid subj, es_delete_missing_person ste i,
   fun hknown he => es_bulk_build_fail stb op e hknown he,
   server_create_person_fail st data e⟩

/-- Sample enrollment record. -/
def enr0 : ClassEnrollment :=
  { id := some "uuid-0", student_id := "s1", class_id := "c1",
    enrollment_date := 1 }

/-- Sample teacher assignment. -/
def asg0 : TeacherAssignment :=
  { id := some "uuid-0", teacher_id := "t1", class_id := "c1",
    subject := "mathematics", assignment_date := 1 }

/-- State whose every collection already stores a document under the
next generated id "uuid-0", so that each insert raises a
duplicate-key error. -/
def stDup : MongoState :=
  { persons := [("uuid-0", p0)], students := [("uuid-0", s0)],
    teachers := [("uuid-0", t0)], classes := [("uuid-0", c0)],
    class_enrollments := [("uuid-0", enr0)],
    teacher_assignments := [("uuid-0", asg0)], now := 5 }

/-- A bulk update whose item lacks the `id` key, raising `KeyError`
inside the action-building loop. -/
def opUpdNoId : BulkOperation :=
  { operation_type := "update", entity_type := "student",
    data := [[("email", Val.str "x@y.z")]] }

/-- Witness for C2: every modeled failure path exercised at a concrete
input produces its failure envelope. -/
theorem C2_witness :
    (MongoDBInterface.create_person stDup p0).1 =
      { success := false, message := "Failed to create person: " ++ dupErr,
        errors := some [dupErr] } ∧
    (MongoDBInterface.create_student stDup s0).1 =
      { success := false, message := "Failed to create student: " ++ dupErr,
        errors := some [dupErr] } ∧
    (MongoDBInterface.create_teacher stDup t0).1 =
      { success := false, message := "Failed to create teacher: " ++ dupErr,
        errors := some [dupErr] } ∧
    (MongoDBInterface.create_class stDup c0).1 =
      { success := false, message := "Failed to create class: " ++ dupErr,
        errors := some [dupErr] } ∧
    (MongoDBInterface.add_students_to_class stDup "c1" ["s1"]).1 =
      { success := false, message := "Failed to add students to class: " ++ dupErr,
        total_processed := 1, successful := 0, failed := 1,
        errors := some [dupErr] } ∧
    (MongoDBInterface.add_teacher_to_class stDup "c1" "t1" "mathematics").1 =
      { success := false, message := "Failed to add teacher to class: " ++ dupErr,
        errors := some [dupErr] } ∧
    ElasticsearchInterface.delete_person es0 "x" =
      ({ success := false, message := "Failed to delete person: " ++ esNotFound,
         errors := some [esNotFound] }, es0) ∧
    ElasticsearchInterface.bulk_operation esb0 opUpdNoId =
      ({ success := false, message := "Bulk operation failed: KeyError: id",
         total_processed := 1, successful := 0, failed := 1,
         errors := some ["KeyError: id"] }, esb0) ∧
    DataSourceMCPServer.create_person st0 [] =
      ({ success := false,
         message := "Failed to create person: field required: first_name",
         errors := some ["field required: first_name"] }, st0) := by
  have h1 := C2_failure_envelopes stDup es0 esb0 opUpdNoId []
    p0 s0 t0 c0 "c1" "t1" "mathematics" "x" ["s1"] dupErr
  have h2 := C2_failure_envelopes st0 es0 esb0 opUpdNoId []
    p0 s0 t0 c0 "c1" "t1" "mathematics" "x" ["s1"] "KeyError: id"
  have h3 := C2_failure_envelopes st0 es0 esb0 opUpdNoId []
    p0 s0 t0 c0 "c1" "t1" "mathematics" "x" ["s1"] "field required: first_name"
  exact ⟨h1.1 (by decide), h1.2.1 (by decide), h1.2.2.1 (by decide),
    h1.2.2.2.1 (by decide), h1.2.2.2.2.1 (by decide),
    h1.2.2.2.2.2.1 (by decide), h1.2.2.2.2.2.2.1 (by decide),
    h2.2.2.2.2.2.2.2.1 (by decide) (by decide),
    h3.2.2.2.2.2.2.2.2 (by decide)⟩

/-! ## Generic aggregate queries (C9)

All three adapters hard-code the target of the generic
`aggregate_query` to the students collection / index / table
("Default collection, should be determined by query_type") and never
read `query_type`.  The raw store below maps collection / index /
table names to their documents; the backend engine's evaluation of the
generated pipeline / search body / SQL is modelled by direct
interpreters over the document list. -/

/-- A raw backend collection. -/
abbrev RawColl := List Item

/-- A raw store: collection (or index, or table) name to documents. -/
abbrev RawDB := List (String × RawColl)

/-- The documents of a named collection (empty when absent). -/
def rawColl (db : RawDB) (name : String) : RawColl :=
  (((db.find? (fun p => p.1 = name))).map (fun p => p.2)).getD []

/-- Full index name of the search-index adapter (default prefix
"school" from the constructor). -/
def esIndexName (entity : String) : String := "school_" ++ entity

/-- Scalar projection used when a document value lands in a flat
result object. -/
def Val.toPrim : Val → Prim
  | .prim p => p
  | .arr _ => .str "[...]"
  | .obj _ => .str "[...]"

/-- `$match` stage / `WHERE` clause: equality filters. -/
def matchStage (docs : RawColl) (filters : Item) : RawColl :=
  docs.filter (fun d => filters.all (fun kv => itemGet d kv.1 = some kv.2))

/-- The grouping key of a document for a `$group` stage. -/
def groupKey (gb : List String) (d : Item) : List (String × Val) :=
  gb.map (fun fld => (fld, (itemGet d fld).getD .null))

/-- `$group` stage: one result document per distinct key, carrying the
key under `_id` and a `{"$sum": 1}` count. -/
def groupStage (docs : RawColl) (gb : List String) : RawColl :=
  ((docs.map (groupKey gb)).dedup).map (fun k =>
    [("_id", Val.obj (k.map (fun kv => (kv.1, kv.2.toPrim)))),
     ("count", Val.num (docs.filter (fun d => groupKey gb d = k)).length)])

/-- Ordering rank of a value (BSON-style cross-type order). -/
def Val.rank : Val → Nat
  | .prim .null => 0
  | .prim (.num _) => 1
  | .prim (.str _) => 2
  | .prim (.bool _) => 3
  | .arr _ => 4
  | .obj _ => 5

/-- Total comparison on values used by the sort stage. -/
def valLe (a b : Val) : Bool :=
  if Val.rank a ≠ Val.rank b then Val.rank a ≤ Val.rank b
  else
    match a, b with
    | .prim (.num m), .prim (.num n) => m ≤ n
    | .prim (.str s), .prim (.str t) => s ≤ t
    | .prim (.bool x), .prim (.bool y) => !x || y
    | _, _ => true

/-- Stable insertion into a sorted document list. -/
def insertSorted (le : Item → Item → Bool) (x : Item) : RawColl → RawColl
  | [] => [x]
  | y :: ys => if le x y then x :: y :: ys else y :: insertSorted le x ys

/-- Stable insertion sort of the documents. -/
def sortDocs (le : Item → Item → Bool) : RawColl → RawColl
  | [] => []
  | x :: xs => insertSorted le x (sortDocs le xs)

/-- `$sort` stage / `ORDER BY`: ascending when the order is "asc",
descending otherwise. -/
def sortStage (docs : RawColl) (key : String) (order : String) : RawColl :=
  sortDocs (fun a b =>
    let av := (itemGet a key).getD .null
    let bv := (itemGet b key).getD .null
    if order = "asc" then valLe av bv else valLe bv av) docs

/-- The pipeline built by the document-store `aggregate_query`:
optional match, group, sort and limit stages (each present only when
its parameter is truthy). -/
def mongoAggregateDocs (docs : RawColl) (q : AggregateQuery) : RawColl :=
  let d1 := match q.filters with
    | some fs => if fs = [] then docs else matchStage docs fs
    | none => docs
  let d2 := match q.group_by with
    | some gb => if gb = [] then d1 else groupStage d1 gb
    | none => d1
  let d3 := match q.sort_by with
    | some k => if k = "" then d2 else sortStage d2 k q.sort_order
    | none => d2
  match q.limit with
  | some n => if n = 0 then d3 else d3.take n
  | none => d3

namespace MongoDBInterface

/-- `MongoDBInterface.aggregate_query`: always runs the pipeline on
the `students` collection; `query_type` is never read. -/
def aggregate_query (db : RawDB) (q : AggregateQuery) : AggregateResponse :=
  let results := mongoAggregateDocs (rawColl db "students") q
  { success := true, message := "Aggregate query executed successfully",
    data := some { results := results }, count := some results.length }

end MongoDBInterface

/-- Result rows of the relational `aggregate_query`
(`SELECT * FROM students` with optional equality `WHERE`, `ORDER BY`
and `LIMIT`; `group_by` is not used by this adapter's SQL builder). -/
def pgAggregateRows (rows : RawColl) (q : AggregateQuery) : RawColl :=
  let r1 := match q.filters with
    | some fs => if fs = [] then rows else matchStage rows fs
    | none => rows
  let r2 := match q.sort_by with
    | some k => if k = "" then r1 else sortStage r1 k q.sort_order
    | none => r1
  match q.limit with
  | some n => if n = 0 then r2 else r2.take n
  | none => r2

namespace PostgreSQLInterface

/-- `PostgreSQLInterface.aggregate_query`: always selects from the
`students` table; `query_type` is never read. -/
def aggregate_query (db : RawDB) (q : AggregateQuery) : AggregateResponse :=
  let results := pgAggregateRows (rawColl db "students") q
  { success := true, message := "Aggregate query executed successfully",
    data := some { results := results }, count := some results.length }

end PostgreSQLInterface

/-- The zero-hit search with an optional terms bucket aggregation built
by the search-index `aggregate_query`: term filters, then buckets over
the first `group_by` field with `size := limit or 100`.  Returns the
bucket documents and the matching-document total. -/
def esAggregateResult (docs : RawColl) (q : AggregateQuery) : List Item × Nat :=
  let filtered := match q.filters with
    | some fs => if fs = [] then docs else matchStage docs fs
    | none => docs
  let buckets := match q.group_by with
    | some gb =>
      if gb = [] then []
      else
        let fld := gb.headD ""
        let size := match q.limit with
          | some n => if n = 0 then 100 else n
          | none => 100
        (((filtered.map (fun d => (itemGet d fld).getD .null)).dedup).map (fun k =>
          [("key", k),
           ("doc_count",
            Val.num (filtered.filter (fun d => (itemGet d fld).getD .null = k)).length)])).take size
    | none => []
  (buckets, filtered.length)

namespace ElasticsearchInterface

/-- `ElasticsearchInterface.aggregate_query`: always searches the
students index; `query_type` is never read. -/
def aggregate_query (db : RawDB) (q : AggregateQuery) : AggregateResponse :=
  let r := esAggregateResult (rawColl db (esIndexName "students")) q
  { success := true, message := "Aggregate query executed successfully",
    data := some { results := r.1 }, count := some r.2 }

end ElasticsearchInterface

/-- C9.  In all three adapters the generic `aggregate_query` reads
only the students collection / index / table — two stores agreeing on
it get identical responses whatever their other collections hold — and
the response is invariant under arbitrary changes of `query_type`. -/
theorem C9_aggregate_targets_students (db db2 : RawDB) (q : AggregateQuery)
    (t : String) :
    (rawColl db "students" = rawColl db2 "students" →
      MongoDBInterface.aggregate_query db q =
        MongoDBInterface.aggregate_query db2 q) ∧
    MongoDBInterface.aggregate_query db { q with query_type := t } =
      MongoDBInterface.aggregate_query db q ∧
    (rawColl db (esIndexName "students") = rawColl db2 (esIndexName "students") →
      ElasticsearchInterface.aggregate_query db q =
        ElasticsearchInterface.aggregate_query db2 q) ∧
    ElasticsearchInterface.aggregate_query db { q with query_type := t } =
      ElasticsearchInterface.aggregate_query db q ∧
    (rawColl db "students" = rawColl db2 "students" →
      PostgreSQLInterface.aggregate_query db q =
        PostgreSQLInterface.aggregate_query db2 q) ∧
    PostgreSQLInterface.aggregate_query db { q with query_type := t } =
      PostgreSQLInterface.aggregate_query db q := by
  refine ⟨?_, rfl, ?_, rfl, ?_, rfl⟩
  · intro h
    simp only [MongoDBInterface.aggregate_query, h]
  · intro h
    simp only [ElasticsearchInterface.aggregate_query, h]
  · intro h
    simp only [PostgreSQLInterface.aggregate_query, h]

/-- A store whose students collection holds two documents; other
collections hold unrelated data. -/
def rawDb1 : RawDB :=
  [("students", [[("grade_level", Val.num 5)], [("grade_level", Val.num 6)]]),
   ("teachers", [[("department", Val.str "math")]]),
   ("school_students", [[("grade_level", Val.num 5)]])]

/-- A store agreeing with `rawDb1` on the students collections but
differing everywhere else. -/
def rawDb2 : RawDB :=
  [("students", [[("grade_level", Val.num 5)], [("grade_level", Val.num 6)]]),
   ("scores", [[("score", Val.num 90)]]),
   ("school_students", [[("grade_level", Val.num 5)]]),
   ("classes", [[("name", Val.str "Algebra")]])]

/-- A sample aggregate query with the query type
"students_per_class". -/
def aggQ : AggregateQuery :=
  { query_type := "students_per_class",
    filters := some [("grade_level", Val.num 5)] }

/-- Witness for C9: the two stores agree on the students collections,
so all three adapters answer identically on them, and changing
`query_type` to "avg_score_per_class" changes nothing. -/
theorem C9_witness :
    MongoDBInterface.aggregate_query rawDb1 aggQ =
      MongoDBInterface.aggregate_query rawDb2 aggQ ∧
    MongoDBInterface.aggregate_query rawDb1
        { aggQ with query_type := "avg_score_per_class" } =
      MongoDBInterface.aggregate_query rawDb1 aggQ ∧
    ElasticsearchInterface.aggregate_query rawDb1 aggQ =
      ElasticsearchInterface.aggregate_query rawDb2 aggQ ∧
    ElasticsearchInterface.aggregate_query rawDb1
        { aggQ with query_type := "avg_score_per_class" } =
      ElasticsearchInterface.aggregate_query rawDb1 aggQ ∧
    PostgreSQLInterface.aggregate_query rawDb1 aggQ =
      PostgreSQLInterface.aggregate_query rawDb2 aggQ :=
  ⟨(C9_aggregate_targets_students rawDb1 rawDb2 aggQ "avg_score_per_class").1
     (by decide),
   (C9_aggregate_targets_students rawDb1 rawDb2 aggQ "avg_score_per_class").2.1,
   (C9_aggregate_targets_students rawDb1 rawDb2 aggQ "avg_score_per_class").2.2.1
     (by decide),
   (C9_aggregate_targets_students rawDb1 rawDb2 aggQ "avg_score_per_class").2.2.2.1,
   (C9_aggregate_targets_students rawDb1 rawDb2 aggQ "avg_score_per_class").2.2.2.2.1
     (by decide)⟩

end SchoolApp
